import Mathlib

/-!
Verification development for the student-performance dashboard application
(`app.py`).  The file shallowly embeds the three data-processing functions
(`process_exam_data`, `process_placement_data`, `process_faculty_data`), the
department extractor (`extract_department`) and the keyword question resolver
(`parse_and_query_data`), and proves properties about them.

Modelling conventions:
* pandas DataFrames become `Frame` (a list of column names plus rows, each row
  an association list from column name to `Cell`);
* machine floats become `ℚ`; a cell that pandas would coerce to a number with
  `pd.to_numeric` is represented as a `Cell.num` carrying its parsed value, a
  string that fails numeric coercion as `Cell.str`, a missing value (`NaN`) as
  `Cell.null`, and a date that `pd.to_datetime` can parse as `Cell.date`
  carrying its calendar year (the only component the code reads);
* dictionaries keyed by strings become association lists;
* a metric whose stored value can be an `{error: reason}` marker becomes
  `Except String α`; a processing function returning a bundle whose sole
  content is a top-level error becomes `Except String <Results>`;
* the unreachable `except` fall-backs of the Python code (the model is total)
  and the Gemini / S3 / Flask collaborators are outside the modelled fragment,
  as are the order of equal-length candidates inside a Python `set` and the
  order of equal-count keys in `value_counts` (both unspecified upstream).
-/

/-! ### Generic list utilities (Python string/list primitives) -/

/-- Does the character list start with the given pattern?  (`str.startswith`.) -/
def startsWithL : List Char → List Char → Bool
  | _, [] => true
  | [], _ :: _ => false
  | a :: as, b :: bs => a == b && startsWithL as bs

/-- Substring test on character lists (Python `needle in hay`). -/
def containsL : List Char → List Char → Bool
  | [], n => n.isEmpty
  | a :: t, n => startsWithL (a :: t) n || containsL t n

/-- Substring test on strings (Python `sub in hay`). -/
def strContains (hay sub : String) : Bool := containsL hay.data sub.data

/-- Python `str.lower()` (ASCII case mapping, as in the data the code reads). -/
def pyLower (s : String) : String := String.mk (s.data.map Char.toLower)

/-- Python `str.upper()`. -/
def pyUpper (s : String) : String := String.mk (s.data.map Char.toUpper)

/-- `str.split(",")` on a character list: maximal comma-free segments,
keeping empty segments, as Python does. -/
def splitComma : List Char → List (List Char)
  | [] => [[]]
  | c :: t =>
      if c = ',' then [] :: splitComma t
      else
        match splitComma t with
        | h :: r => (c :: h) :: r
        | [] => [[c]]

/-- Stable insertion of an element into a list with respect to a boolean
relation; used to model the various pandas sorts. -/
def insertLe (le : α → α → Bool) (a : α) : List α → List α
  | [] => [a]
  | b :: l => if le a b then a :: b :: l else b :: insertLe le a l

/-- Stable insertion sort with respect to a boolean relation. -/
def sortLe (le : α → α → Bool) : List α → List α
  | [] => []
  | a :: l => insertLe le a (sortLe le l)

theorem mem_insertLe (le : α → α → Bool) (a x : α) :
    ∀ l : List α, x ∈ insertLe le a l ↔ x = a ∨ x ∈ l := by
  intro l
  induction l with
  | nil => simp [insertLe]
  | cons b t ih =>
      by_cases h : le a b = true
      · simp [insertLe, h]
      · simp [insertLe, h, ih]
        tauto

theorem mem_sortLe (le : α → α → Bool) (x : α) :
    ∀ l : List α, x ∈ sortLe le l ↔ x ∈ l := by
  intro l
  induction l with
  | nil => simp [sortLe]
  | cons b t ih => simp [sortLe, mem_insertLe, ih]

theorem chain'_insertLe (le : α → α → Bool)
    (htot : ∀ x y, le x y = true ∨ le y x = true) (a : α) :
    ∀ l : List α, List.Chain' (fun x y => le x y = true) l →
      List.Chain' (fun x y => le x y = true) (insertLe le a l) := by
  intro l
  induction l with
  | nil => intro _; simp [insertLe]
  | cons b t ih =>
      intro h
      rw [List.chain'_cons'] at h
      by_cases hab : le a b = true
      · simp only [insertLe, hab, if_true]
        rw [List.chain'_cons']
        refine ⟨?_, ?_⟩
        · intro y hy
          simp at hy
          subst hy
          exact hab
        · rw [List.chain'_cons']
          exact h
      · have hab' : le a b = false := by
          cases hq : le a b
          · rfl
          · exact absurd hq hab
        simp only [insertLe, hab', Bool.false_eq_true, if_false]
        rw [List.chain'_cons']
        refine ⟨?_, ih h.2⟩
        intro y hy
        cases t with
        | nil =>
            simp [insertLe] at hy
            subst hy
            rcases htot a b with h1 | h1
            · exact absurd h1 hab
            · exact h1
        | cons c t' =>
            by_cases hac : le a c = true
            · simp [insertLe, hac] at hy
              subst hy
              rcases htot a b with h1 | h1
              · exact absurd h1 hab
              · exact h1
            · simp [insertLe, hac] at hy
              subst hy
              exact h.1 c rfl

theorem chain'_sortLe (le : α → α → Bool)
    (htot : ∀ x y, le x y = true ∨ le y x = true) :
    ∀ l : List α, List.Chain' (fun x y => le x y = true) (sortLe le l) := by
  intro l
  induction l with
  | nil => simp [sortLe]
  | cons b t ih => exact chain'_insertLe le htot b _ ih

theorem pairwise_sortLe (le : α → α → Bool)
    (htot : ∀ x y, le x y = true ∨ le y x = true)
    (htrans : ∀ x y z, le x y = true → le y z = true → le x z = true)
    (l : List α) : List.Pairwise (fun x y => le x y = true) (sortLe le l) := by
  letI : IsTrans α fun x y => le x y = true :=
    ⟨fun x y z hxy hyz => htrans x y z hxy hyz⟩
  exact List.chain'_iff_pairwise.mp (chain'_sortLe le htot l)

/-! ### Lexicographic string order (Python `sorted` / pandas `sort_index`) -/

/-- Lexicographic comparison of character lists by code point, as Python
compares strings. -/
def lexLe : List Char → List Char → Bool
  | [], _ => true
  | _ :: _, [] => false
  | a :: as, b :: bs =>
      if a.val < b.val then true
      else if b.val < a.val then false
      else lexLe as bs

/-- Lexicographic `≤` on strings by code point. -/
def strLeB (a b : String) : Bool := lexLe a.data b.data

theorem lexLe_total : ∀ x y : List Char, lexLe x y = true ∨ lexLe y x = true := by
  intro x
  induction x with
  | nil => intro y; left; rfl
  | cons a as ih =>
      intro y
      cases y with
      | nil => right; rfl
      | cons b bs =>
          by_cases h1 : a.val < b.val
          · left; simp [lexLe, h1]
          · by_cases h2 : b.val < a.val
            · right; simp [lexLe, h2]
            · rcases ih bs with h | h
              · left; simp [lexLe, h1, h2, h]
              · right; simp [lexLe, h1, h2, h]

theorem strLeB_total : ∀ x y : String, strLeB x y = true ∨ strLeB y x = true := by
  intro x y
  exact lexLe_total x.data y.data

/-- Descending-length order used by `extract_department`
(`sorted(..., key=len, reverse=True)`). -/
def lenGeB (a b : String) : Bool := decide (b.length ≤ a.length)

theorem lenGeB_total : ∀ x y : String, lenGeB x y = true ∨ lenGeB y x = true := by
  intro x y
  unfold lenGeB
  rcases Nat.le_total x.length y.length with h | h
  · right; exact decide_eq_true h
  · left; exact decide_eq_true h

theorem lenGeB_trans : ∀ x y z : String,
    lenGeB x y = true → lenGeB y z = true → lenGeB x z = true := by
  intro x y z hxy hyz
  unfold lenGeB at *
  exact decide_eq_true (Nat.le_trans (of_decide_eq_true hyz) (of_decide_eq_true hxy))

/-! ### Rational helpers (float arithmetic of the Python code) -/

/-- Mean of a list of rationals (`Series.mean`); only ever applied to nonempty
lists by the model, mirroring the code's emptiness guards. -/
def meanQ (xs : List ℚ) : ℚ := xs.sum / (xs.length : ℚ)

/-- Rounding to `nd` decimal places (`round(x, nd)` / `Series.round(nd)`). -/
def roundTo (nd : Nat) (q : ℚ) : ℚ := (round (q * (10 : ℚ) ^ nd) : ℤ) / (10 : ℚ) ^ nd

theorem roundTo_den (nd : Nat) (q : ℚ) : (roundTo nd q * (10 : ℚ) ^ nd).den = 1 := by
  unfold roundTo
  rw [div_mul_cancel₀]
  · exact Rat.den_intCast _
  · positivity

/-- Left-pad a digit string with zeros (fixed-width fractional part). -/
def padZeros (n : Nat) (s : String) : String :=
  String.mk (List.replicate (n - s.length) '0') ++ s

/-- Fixed-point decimal rendering with `nd` fractional digits, modelling the
Python format specifiers `.1f` / `.2f` (and `.1%` after scaling by 100). -/
def fmtFixed (nd : Nat) (q : ℚ) : String :=
  let m : ℤ := round (q * (10 : ℚ) ^ nd)
  let sign := if m < 0 then "-" else ""
  let a := m.natAbs
  let ip := a / 10 ^ nd
  let fp := a % 10 ^ nd
  if nd = 0 then sign ++ toString ip
  else sign ++ toString ip ++ "." ++ padZeros nd (toString fp)

/-- Python `str.strip()`: drop whitespace from both ends. -/
def trimL (l : List Char) : List Char := l.dropWhile Char.isWhitespace

/-- Drop trailing whitespace from a character list. -/
def trimR (l : List Char) : List Char :=
  (l.reverse.dropWhile Char.isWhitespace).reverse

/-- Python `str.strip()` on strings. -/
def pyStrip (s : String) : String := String.mk (trimR (trimL s.data))

theorem trimR_dot_space (m : List Char) :
    trimR (m ++ [ '.', ' ' ]) = m ++ [ '.' ] := by
  unfold trimR
  simp [List.dropWhile]

theorem trimLR_summary (m : List Char) :
    trimR (trimL ('D' :: (m ++ [ '.', ' ' ]))) = 'D' :: (m ++ [ '.' ]) := by
  have h1 : trimL ('D' :: (m ++ [ '.', ' ' ])) = 'D' :: (m ++ [ '.', ' ' ]) := rfl
  rw [h1]
  have h2 : 'D' :: (m ++ [ '.', ' ' ]) = ('D' :: m) ++ [ '.', ' ' ] := rfl
  rw [h2, trimR_dot_space]
  rfl

/-! ### Cells, rows and frames (the DataFrame fragment the code reads) -/

/-- A cell of the ingested CSV data.  `num` carries the value that
`pd.to_numeric` would produce, `date` the calendar year `pd.to_datetime`
would extract (the code only ever reads `.dt.year`), `null` is `NaN`. -/
inductive Cell where
  | str (s : String)
  | num (q : ℚ)
  | date (year : Int)
  | null
deriving DecidableEq

/-- A row: association list from (already lowercased/renamed) column name to
cell.  A column absent from the row reads as `NaN`, as in pandas. -/
def Row := List (String × Cell)

/-- A DataFrame: its column names and its rows. -/
structure Frame where
  cols : List String
  rows : List Row

/-- Read one column of a row (missing key = `NaN`). -/
def getCell (r : Row) (c : String) : Cell := (List.lookup c r).getD Cell.null

/-- `pd.to_numeric(x, errors="coerce")` on one cell: numeric cells carry their
parsed value, everything else coerces to `NaN`. -/
def toNumeric : Cell → Option ℚ
  | Cell.num q => some q
  | _ => none

/-- The string value of a cell holding text; `none` for anything a string
filter such as `notna()` plus `.str` accessors would reject. -/
def cellStr : Cell → Option String
  | Cell.str s => some s
  | _ => none

/-- `astype(str)` without a prior `fillna`: `NaN` renders as `"nan"`.
Numeric and date cells render via their literal value. -/
def cellStrNa : Cell → String
  | Cell.str s => s
  | Cell.num q => toString q
  | Cell.date y => toString y
  | Cell.null => "nan"

/-- `fillna("Unknown").astype(str)` on one cell. -/
def pyStrFill : Cell → String
  | Cell.null => "Unknown"
  | c => cellStrNa c

/-- The year component of a date cell (`pd.to_datetime(...).dt.year`);
strings that fail date parsing and all other cells are `NaT`. -/
def cellYear : Cell → Option Int
  | Cell.date y => some y
  | _ => none

/-! ### Group-by helpers shared by the three aggregators -/

/-- `df.groupby(key)[val].mean()` over explicit pairs: distinct keys in
ascending `le`-order, each with the unrounded mean of its values. -/
def groupMeanKey [DecidableEq κ] (le : κ → κ → Bool) (pairs : List (κ × ℚ)) :
    List (κ × ℚ) :=
  (sortLe le (pairs.map Prod.fst).dedup).map
    (fun k => (k, meanQ ((pairs.filter (fun p => p.1 == k)).map Prod.snd)))

/-- `groupby(...).mean().round(nd).sort_index()` with string keys: grouped
means rounded to `nd` decimals, keys sorted lexicographically. -/
def groupMeanR (nd : Nat) (pairs : List (String × ℚ)) : List (String × ℚ) :=
  (groupMeanKey strLeB pairs).map (fun p => (p.1, roundTo nd p.2))

/-- Descending order on the numeric second component (`sort_values(ascending=False)`,
`nlargest`); stable, so ties keep their prior key order. -/
def valGeB (a b : κ × ℚ) : Bool := decide (b.2 ≤ a.2)

/-- Descending order on counts (`value_counts()` / `sorted(..., reverse=True)`). -/
def cntGeB (a b : κ × Nat) : Bool := decide (b.2 ≤ a.2)

/-- `Series.value_counts()`: distinct values with occurrence counts, sorted by
count descending. -/
def valueCountsDesc (xs : List String) : List (String × Nat) :=
  sortLe cntGeB (xs.dedup.map (fun k => (k, xs.count k)))

theorem mem_groupMeanKey_key [DecidableEq κ] (le : κ → κ → Bool)
    (pairs : List (κ × ℚ)) (p : κ × ℚ) (hp : p ∈ groupMeanKey le pairs) :
    p.1 ∈ pairs.map Prod.fst := by
  unfold groupMeanKey at hp
  rcases List.mem_map.mp hp with ⟨k, hk, hkeq⟩
  rw [mem_sortLe] at hk
  rw [← hkeq]
  exact List.mem_dedup.mp hk

theorem lookup_eq_none_of_not_mem {β : Type} (k : String) :
    ∀ l : List (String × β), (∀ p ∈ l, p.1 ≠ k) → List.lookup k l = none := by
  intro l
  induction l with
  | nil => intro _; rfl
  | cons a t ih =>
      intro h
      have ha : a.1 ≠ k := h a (List.mem_cons_self a t)
      have hk : (k == a.1) = false := by
        simp [Ne.symm ha]
      simp [List.lookup, hk]
      intro x y hxy hkx
      exact (h (x, y) (List.mem_cons_of_mem a hxy)) hkx.symm

/-! ### `process_exam_data` -/

/-- Output bundle of `process_exam_data` (the fields the dashboard and the
resolver read; the Gemini summary fields are attached outside the core). -/
structure ExamResults where
  kpi_overall_avg_mark : ℚ
  performance_by_department : List (String × ℚ)
  grade_distribution : List (String × Nat)
  subject_performance : Except String (List (String × ℚ))
  marks_comparison : Option ℚ × Option ℚ
  semester_performance : Except String (List (String × ℚ))

/-- Required exam columns (`base_required_cols`). -/
def examRequired : List String := ["marks", "department", "exam_type", "date"]

/-- Rows surviving `pd.to_numeric(df["marks"], errors="coerce")` plus
`dropna(subset=["marks"])`, paired with their numeric mark. -/
def examRows (f : Frame) : List (Row × ℚ) :=
  f.rows.filterMap (fun r => (toNumeric (getCell r ("marks"))).map (fun m => (r, m)))

/-- Fixed score-to-letter thresholds (`get_grade`). -/
def get_grade (m : ℚ) : String :=
  if 90 ≤ m then "A+"
  else if 80 ≤ m then "A"
  else if 70 ≤ m then "B"
  else if 60 ≤ m then "C"
  else if 40 ≤ m then "D"
  else "F"

/-- Fixed display order of the grade histogram (`grade_order`). -/
def gradeOrder : List String := ["A+", "A", "B", "C", "D", "F"]

/-- Key/mark pairs for a string-keyed group-by; pandas `groupby` drops `NaN`
keys, represented here by `cellStr` returning `none`. -/
def examKeyPairs (f : Frame) (col : String) : List (String × ℚ) :=
  (examRows f).filterMap (fun p => (cellStr (getCell p.1 col)).map (fun d => (d, p.2)))

/-- Exam-type normalization (`internal_patterns`). -/
def internalPats : List String := ["internal", "midterm", "mid term", "mid", "mst"]

/-- Exam-type normalization (`external_patterns`). -/
def externalPats : List String := ["external", "final", "endterm", "end term", "end", "est"]

/-- Per-row exam-type class (`exam_type_mapped`):
`fillna("Unknown").astype(str).str.lower().str.strip()` matched against the
two pattern lists, defaulting to `Other`. -/
def examTypeMapped (r : Row) : String :=
  let s := pyStrip (pyLower (pyStrFill (getCell r ("exam_type"))))
  if s ∈ internalPats then "Internal"
  else if s ∈ externalPats then "External"
  else "Other"

/-- Yearly mark trend (stored under the legacy key `semester_performance`):
group valid-date rows by calendar year, mean, round(2), keys stringified and
sorted numerically. -/
def examYearly (f : Frame) : Except String (List (String × ℚ)) :=
  let yrs := (examRows f).filterMap
    (fun p => (cellYear (getCell p.1 ("date"))).map (fun y => (y, p.2)))
  if yrs.isEmpty then Except.error ("No valid dates")
  else Except.ok (((groupMeanKey (fun a b : Int => decide (a ≤ b)) yrs).map
    (fun p => (toString p.1, roundTo 2 p.2))))

/-- `process_exam_data`: empty check, required-column check, mark coercion,
then the metric bundle. -/
def process_exam_data (f : Frame) : Except String ExamResults :=
  if f.rows.isEmpty then Except.error ("Exam data is empty or could not be loaded.")
  else
    let missing := examRequired.filter (fun c => !(f.cols.contains c))
    if missing.isEmpty then
      let rows := examRows f
      if rows.isEmpty then
        Except.error ("No valid numeric marks found in exam data after cleaning.")
      else
        let typePairs := rows.map (fun p => (examTypeMapped p.1, p.2))
        let byType := groupMeanR 2 typePairs
        Except.ok
          { kpi_overall_avg_mark := roundTo 2 (meanQ (rows.map Prod.snd))
            performance_by_department := groupMeanR 2 (examKeyPairs f ("department"))
            grade_distribution := gradeOrder.map
              (fun g => (g, (rows.filter (fun p => get_grade p.2 == g)).length))
            subject_performance :=
              if f.cols.contains ("subjects") then
                Except.ok (((sortLe valGeB
                    (groupMeanKey strLeB (examKeyPairs f ("subjects")))).take 5).map
                  (fun p => (p.1, roundTo 2 p.2)))
              else Except.error ("Subjects column missing")
            marks_comparison :=
              (List.lookup ("Internal") byType, List.lookup ("External") byType)
            semester_performance := examYearly f }
    else
      Except.error (("Missing essential exam column(s): ") ++
        String.intercalate (", ") missing)

/-! ### `process_placement_data` -/

/-- A placement row after numeric coercion of `package_lpa`/`cgpa`, the
`dropna` on both, and the placement/gender standardization. -/
structure PRow where
  dept : Cell
  pnum : Nat
  gender : String
  cgpa : ℚ
  pkg : ℚ
  company : Cell
  skills : Cell

/-- Output bundle of `process_placement_data`. -/
structure PlacementResults where
  kpi_overall_placement_rate : String
  kpi_overall_avg_package : ℚ
  placement_rate_by_dept : List (String × ℚ)
  package_by_dept : List (String × ℚ)
  cgpa_package_data : List ℚ × List ℚ
  top_companies : Except String (List (String × Nat))
  top_skills : Except String (List (String × Nat))
  gender_placement : Except String (List (String × List (String × Nat)))
  cgpa_distribution : List (String × Nat)
  avg_cgpa_by_placement : List (String × ℚ)
  department_list : List String

/-- Required placement columns (`required_cols`). -/
def placementRequired : List String :=
  ["department", "placement", "package_lpa", "cgpa", "gender"]

/-- The `placement_map` lookup on
`fillna("Unknown").astype(str).str.strip().str.lower()`, with unmapped values
defaulting to `0` (`.fillna(0)`). -/
def placementNum (c : Cell) : Nat :=
  let s := pyLower (pyStrip (pyStrFill c))
  if s ∈ ["yes", "true", "1", "placed", "1.0"] then 1
  else if s ∈ ["no", "false", "0", "not placed", "0.0"] then 0
  else 0

/-- The `gender_map` lookup on
`fillna("Unknown").astype(str).str.strip().str.lower()`, with unmapped values
defaulting to `"Other"` (`.fillna("Other")`). -/
def genderStd (c : Cell) : String :=
  let s := pyLower (pyStrip (pyStrFill c))
  if s ∈ ["male", "m", "man"] then "Male"
  else if s ∈ ["female", "f", "woman"] then "Female"
  else if s ∈ ["other", "non-binary"] then "Other"
  else "Other"

/-- The canonical placement rows of a frame: numeric coercion of `cgpa` and
`package_lpa`, rows dropped when either is invalid, placement and gender
standardized. -/
def placementCleanRows (f : Frame) : List PRow :=
  f.rows.filterMap (fun r =>
    match toNumeric (getCell r ("cgpa")), toNumeric (getCell r ("package_lpa")) with
    | some c, some p =>
        some { dept := getCell r ("department")
               pnum := placementNum (getCell r ("placement"))
               gender := genderStd (getCell r ("gender"))
               cgpa := c
               pkg := p
               company := getCell r ("company")
               skills := getCell r ("skills") }
    | _, _ => none)

/-- Department/value pairs restricted to rows whose department is non-null and
non-empty (`notna() & (department != "")`). -/
def validDeptPairs (rows : List PRow) (v : PRow → ℚ) : List (String × ℚ) :=
  rows.filterMap (fun r =>
    match cellStr r.dept with
    | some s => if s = "" then none else some (s, v r)
    | none => none)

/-- The four fixed CGPA buckets of `pd.cut(bins=[0,7,8,9,10.1], right=False,
include_lowest=True)`: lower bound inclusive, upper bound exclusive; values
outside `[0, 10.1)` fall in no bucket (`NaN` bin). -/
def cgpaBucket (q : ℚ) : Option String :=
  if 0 ≤ q ∧ q < 7 then some ("< 7")
  else if 7 ≤ q ∧ q < 8 then some ("7-8")
  else if 8 ≤ q ∧ q < 9 then some ("8-9")
  else if 9 ≤ q ∧ q < (101 : ℚ) / 10 then some ("9+")
  else none

/-- Bucket labels in display order (`labels`). -/
def cgpaLabels : List String := ["< 7", "7-8", "8-9", "9+"]

/-- CGPA bucket counts, reindexed over all four labels with zero fill. -/
def cgpaDist (rows : List PRow) : List (String × Nat) :=
  cgpaLabels.map (fun l => (l, (rows.filter (fun r => cgpaBucket r.cgpa == some l)).length))

/-- Skill splitting: `;`, `|` and spaces collapsed to commas, split, stripped,
lowercased, empties dropped. -/
def splitSkills (s : String) : List String :=
  let repl := s.data.map (fun c => if c = ';' ∨ c = '|' ∨ c = ' ' then ',' else c)
  ((splitComma repl).map (fun t => pyLower (pyStrip (String.mk t)))).filter (fun t => t ≠ "")

/-- Gender-vs-placement cross-tabulation with its two cardinality guards: the
outer `nunique() > 1 and not isin(["Unknown","Other"]).all()` check, the
`Unknown` filter, the inner `nunique() < 2` check, and the crosstab with both
outcome columns (`0`, `1`) guaranteed present. -/
def genderPlacement (rows : List PRow) : Except String (List (String × List (String × Nat))) :=
  let gs := rows.map PRow.gender
  if gs.dedup.length > 1 && !(gs.all (fun g => g = "Unknown" || g = "Other")) then
    let fr := rows.filter (fun r => r.gender ≠ "Unknown")
    if (fr.map PRow.gender).dedup.length < 2 then
      Except.error ("Insufficient distinct gender values")
    else
      Except.ok ((sortLe strLeB (fr.map PRow.gender).dedup).map (fun g =>
        (g, [(("0"), (fr.filter (fun r => r.gender == g && r.pnum == 0)).length),
             (("1"), (fr.filter (fun r => r.gender == g && r.pnum == 1)).length)])))
  else
    Except.error ("Insufficient distinct gender values")

/-- `process_placement_data`: empty check, required-column check, numeric
coercion and dropna, then the metric bundle. -/
def process_placement_data (f : Frame) : Except String PlacementResults :=
  if f.rows.isEmpty then
    Except.error ("Placement data is empty or could not be loaded.")
  else
    let missing := placementRequired.filter (fun c => !(f.cols.contains c))
    if missing.isEmpty then
      let rows := placementCleanRows f
      if rows.isEmpty then
        Except.error ("No valid CGPA or Package data found after cleaning.")
      else
        let totalPlaced := (rows.filter (fun r => r.pnum == 1)).length
        let placed := rows.filter (fun r => r.pnum == 1)
        let avgPkg := if placed.isEmpty then 0 else meanQ (placed.map PRow.pkg)
        let notPlaced := rows.filter (fun r => r.pnum == 0)
        Except.ok
          { kpi_overall_placement_rate :=
              fmtFixed 1 (meanQ (rows.map (fun r => (r.pnum : ℚ))) * 100) ++ ("%")
            kpi_overall_avg_package := roundTo 2 avgPkg
            placement_rate_by_dept :=
              groupMeanR 3 (validDeptPairs rows (fun r => (r.pnum : ℚ)))
            package_by_dept := groupMeanR 2 (validDeptPairs placed PRow.pkg)
            cgpa_package_data := (placed.map PRow.cgpa, placed.map PRow.pkg)
            top_companies :=
              if f.cols.contains ("company") && totalPlaced > 0 then
                Except.ok (valueCountsDesc (placed.filterMap (fun r =>
                  match cellStr r.company with
                  | some s => if pyStrip s = "" then none else some (pyStrip s)
                  | none => none)))
              else Except.error ("\u0027company\u0027 column missing or no placements")
            top_skills :=
              if f.cols.contains ("skills") && totalPlaced > 0 then
                let sdata := placed.filterMap (fun r =>
                  match r.skills with
                  | Cell.null => none
                  | c => some (cellStrNa c))
                if sdata.isEmpty then
                  Except.error ("No non-empty skills data for placed students")
                else
                  Except.ok (valueCountsDesc (sdata.flatMap splitSkills))
              else Except.error ("\u0027skills\u0027 column missing or no placements")
            gender_placement := genderPlacement rows
            cgpa_distribution := cgpaDist rows
            avg_cgpa_by_placement :=
              (if notPlaced.isEmpty then []
               else [(("Not Placed"), roundTo 2 (meanQ (notPlaced.map PRow.cgpa)))]) ++
              (if placed.isEmpty then []
               else [(("Placed"), roundTo 2 (meanQ (placed.map PRow.cgpa)))])
            department_list :=
              sortLe strLeB ((rows.map (fun r => pyUpper (cellStrNa r.dept))).dedup) }
    else
      Except.error (("Missing essential placement column(s): ") ++
        String.intercalate (", ") missing)

/-! ### `process_faculty_data` -/

/-- A faculty-review row after `pd.to_numeric(df["review"])` plus `dropna`,
with the half-even rounded integer rating (`rating_int`). -/
structure FRow where
  rating : ℚ
  rint : Int
  dept : Cell
  fac : Cell
  course : Cell
  sem : Cell
  syear : Cell

/-- Output bundle of `process_faculty_data`. -/
structure FacultyResults where
  kpi_overall_avg_rating : ℚ
  dept_teaching_ratings : Except String (List (String × ℚ))
  semester_ratings : Except String (List (String × ℚ))
  yearly_average_trend : Except String (List (String × ℚ))
  top_faculty : Except String (List (String × ℚ))
  course_ratings : Except String (List (String × ℚ))
  rating_distribution : List (String × Nat)
  department_list : List String

/-- Round half to even (`numpy`/pandas `Series.round()`). -/
def rndHalfEven (q : ℚ) : ℤ :=
  if q - (⌊q⌋ : ℚ) < (1 : ℚ) / 2 then ⌊q⌋
  else if (1 : ℚ) / 2 < q - (⌊q⌋ : ℚ) then ⌊q⌋ + 1
  else if ⌊q⌋ % 2 = 0 then ⌊q⌋ else ⌊q⌋ + 1

/-- Truncation toward zero (Python `int(...)` on a float). -/
def truncQ (q : ℚ) : ℤ := if 0 ≤ q then ⌊q⌋ else -⌊-q⌋

/-- Digit run to a natural number (`int(...)` on a matched digit group). -/
def natOfDigits (l : List Char) : Nat :=
  l.foldl (fun a c => a * 10 + (c.toNat - 48)) 0

/-- Trailing integer of a label (`str.extract(r"(\d+)$")`). -/
def extractTrailing (s : String) : Option Nat :=
  let ds := (s.data.reverse.takeWhile Char.isDigit).reverse
  if ds.isEmpty then none else some (natOfDigits ds)

/-- Numeric-suffix-aware semester order: labels with a trailing number sort by
it, labels without one sort after (`fillna(float("inf"))`). -/
def semLeB (a b : String × ℚ) : Bool :=
  match extractTrailing a.1, extractTrailing b.1 with
  | some x, some y => decide (x ≤ y)
  | some _, none => true
  | none, some _ => false
  | none, none => true

/-- Ascending order on rational keys (numeric `sort_index`). -/
def ratLeB (a b : ℚ) : Bool := decide (a ≤ b)

/-- Faculty rows surviving review coercion and the 1–5 integer-scale filter
(`df_valid_scale`). -/
def facultyValidScale (f : Frame) : List FRow :=
  (f.rows.filterMap (fun r => (toNumeric (getCell r ("review"))).map (fun q =>
    { rating := q
      rint := rndHalfEven q
      dept := getCell r ("department")
      fac := getCell r ("faculty")
      course := getCell r ("course_taught")
      sem := getCell r ("semester")
      syear := getCell r ("student_year") }))).filter
    (fun r => decide (1 ≤ r.rint) && decide (r.rint ≤ 5))

/-- Key/rating pairs over non-null, non-empty string cells
(`notna() & (col != "")`). -/
def validStrPairs (rows : List FRow) (key : FRow → Cell) : List (String × ℚ) :=
  rows.filterMap (fun r =>
    match cellStr (key r) with
    | some s => if s = "" then none else some (s, r.rating)
    | none => none)

/-- `process_faculty_data`: empty check, `review`-column check, rating
coercion and scale filter, then the metric bundle.  Note that of the four
`required_cols` only `review` aborts processing; the other three merely log a
warning and degrade their own metrics. -/
def process_faculty_data (f : Frame) : Except String FacultyResults :=
  if f.rows.isEmpty then
    Except.error ("Faculty data is empty or could not be loaded.")
  else if !(f.cols.contains ("review")) then
    Except.error ("Missing essential faculty column(s): review")
  else
    let valid := facultyValidScale f
    if valid.isEmpty then
      Except.error ("No valid faculty ratings found in the range (1-5) after cleaning.")
    else
      Except.ok
        { kpi_overall_avg_rating := roundTo 2 (meanQ (valid.map FRow.rating))
          dept_teaching_ratings :=
            if f.cols.contains ("department") then
              let ps := validStrPairs valid FRow.dept
              if ps.isEmpty then Except.error ("No valid department data")
              else Except.ok (groupMeanR 2 ps)
            else Except.error ("\u0027department\u0027 column missing")
          semester_ratings :=
            if f.cols.contains ("semester") then
              let vs := valid.filter (fun r => r.sem ≠ Cell.null)
              if vs.isEmpty then Except.error ("No valid semester data")
              else
                let means := groupMeanR 2 (vs.map (fun r => (cellStrNa r.sem, r.rating)))
                if (means.map Prod.fst).any (fun k => (extractTrailing k).isSome) then
                  Except.ok (sortLe semLeB means)
                else Except.ok means
            else Except.error ("\u0027semester\u0027 column missing")
          yearly_average_trend :=
            if f.cols.contains ("student_year") then
              let vy := valid.filter (fun r => r.syear ≠ Cell.null)
              if vy.isEmpty then Except.error ("No valid student_year data")
              else
                let nums := vy.filterMap (fun r =>
                  (toNumeric r.syear).map (fun n => (n, r.rating)))
                if !nums.isEmpty then
                  Except.ok (((groupMeanKey ratLeB nums).map
                    (fun p => (toString (truncQ p.1), roundTo 2 p.2))))
                else
                  Except.ok (groupMeanR 2 (vy.map (fun r => (cellStrNa r.syear, r.rating))))
            else Except.error ("\u0027student_year\u0027 column missing")
          top_faculty :=
            if f.cols.contains ("faculty") then
              let ps := validStrPairs valid FRow.fac
              if ps.isEmpty then Except.error ("No valid faculty data")
              else Except.ok (sortLe valGeB (groupMeanR 2 ps))
            else Except.error ("\u0027faculty\u0027 column missing")
          course_ratings :=
            if f.cols.contains ("course_taught") then
              let ps := validStrPairs valid FRow.course
              if ps.isEmpty then Except.error ("No valid course_taught data")
              else Except.ok (sortLe valGeB (groupMeanR 2 ps))
            else Except.error ("\u0027course_taught\u0027 column missing")
          rating_distribution :=
            (List.range 5).map (fun i =>
              (toString (i + 1), (valid.filter (fun r => r.rint == (i : Int) + 1)).length))
          department_list :=
            if f.cols.contains ("department") then
              sortLe strLeB ((valid.map (fun r => pyUpper (cellStrNa r.dept))).dedup)
            else [] }

/-! ### `extract_department` -/

/-- Python regex `\w`: word character (ASCII letters, digits, underscore). -/
def isWordChar (c : Char) : Bool := c.isAlphanum || c == '_'

/-- Is the character at position `i` a word character (out of range counts as
non-word, like the edges of a regex subject)? -/
def wordAt (s : List Char) (i : Nat) : Bool := ((s.get? i).map isWordChar).getD false

/-- Regex `\b`: a word boundary sits at `i` when exactly one of the adjacent
positions holds a word character. -/
def boundaryAt (s : List Char) (i : Nat) : Bool :=
  (if i = 0 then false else wordAt s (i - 1)) != wordAt s i

/-- `re.search(r"\b" + re.escape(d) + r"\b", s)`: does `d` occur in `s` as a
whole token, delimited by word boundaries? -/
def tokenMatchL (s d : List Char) : Bool :=
  (List.range (s.length + 1)).any (fun i =>
    startsWithL (s.drop i) d && boundaryAt s i && boundaryAt s (i + d.length))

/-- Whole-token occurrence test on strings. -/
def tokenMatchS (s d : String) : Bool := tokenMatchL s.data d.data

/-- Concatenation of the per-domain department lists
(`all_known_departments.update(dept_list)`). -/
def joinL (ls : List (List String)) : List String := ls.foldr (fun a b => a ++ b) []

/-- `extract_department`: uppercase the question, pool the known departments,
scan them longest-first, return the first whole-token match. -/
def extract_department (question : String) (department_lists : List (List String)) :
    Option String :=
  let qU := pyUpper question
  (sortLe lenGeB (joinL department_lists).dedup).find? (fun d => tokenMatchS qU d)

/-! ### `parse_and_query_data` -/

/-- Leftmost occurrence of `re.search(r"top (\d+)", s)`: the literal `"top "`
followed by at least one digit; the captured maximal digit run as a number. -/
def findTopNL : List Char → Option Nat
  | [] => none
  | c :: rest =>
      if startsWithL (c :: rest) (("top ").data) &&
         (((c :: rest).drop 4).headD ' ').isDigit then
        some (natOfDigits (((c :: rest).drop 4).takeWhile Char.isDigit))
      else findTopNL rest

/-- Top-N extraction on strings. -/
def findTopN (s : String) : Option Nat := findTopNL s.data

/-- `placement_data.get("department_list", [])`: an error bundle is a dict
without the key, giving the default. -/
def pDeptListE : Except String PlacementResults → List String
  | Except.ok r => r.department_list
  | Except.error _ => []

/-- `faculty_data.get("department_list", [])`. -/
def fDeptListE : Except String FacultyResults → List String
  | Except.ok r => r.department_list
  | Except.error _ => []

/-- The fixed fallback guidance string returned when no intent matched. -/
def fallbackMsg : String :=
  "I couldn\u0027t find specific data matching your question in the pre-calculated dashboard metrics. Please ask about overall KPIs, department averages (e.g., \u0027average package for CSE\u0027), or top lists (e.g., \u0027top 5 skills\u0027)."

/-- Placement block of `parse_and_query_data`: an `if/elif` chain over the
placement keyword patterns, threading the accumulated `(data_summary,
found_data)` pair; a `return` inside a branch becomes `Except.error`. -/
def placementSection (qL : String) (dept? : Option String)
    (plc : Except String PlacementResults) (acc : String × Bool) :
    Except String (String × Bool) :=
  if strContains qL ("placement rate") then
    match dept?, plc with
    | some d, Except.ok r =>
        match List.lookup d r.placement_rate_by_dept with
        | some rate =>
            Except.ok (acc.1 ++ ("The placement rate for ") ++ d ++ (" is ") ++
              fmtFixed 1 (rate * 100) ++ ("%. "), true)
        | none =>
            Except.error (("Could not find placement rate data for department \u0027") ++
              d ++ ("\u0027."))
    | _, _ =>
        if strContains qL ("overall") || dept?.isNone then
          match plc with
          | Except.ok r =>
              if (r.kpi_overall_placement_rate).isEmpty then Except.ok acc
              else
                Except.ok (acc.1 ++ ("The overall placement rate is ") ++
                  r.kpi_overall_placement_rate ++ (". "), true)
          | Except.error _ => Except.ok acc
        else Except.ok acc
  else if strContains qL ("average package") || strContains qL ("avg package") ||
      strContains qL ("average salary") then
    match dept?, plc with
    | some d, Except.ok r =>
        match List.lookup d r.package_by_dept with
        | some pkg =>
            Except.ok (acc.1 ++ ("The average package for ") ++ d ++ (" is ") ++
              fmtFixed 2 pkg ++ (" LPA. "), true)
        | none =>
            Except.error (("Could not find average package data for department \u0027") ++
              d ++ ("\u0027."))
    | _, _ =>
        if strContains qL ("overall") || dept?.isNone then
          match plc with
          | Except.ok r =>
              Except.ok (acc.1 ++ ("The overall average package is ") ++
                fmtFixed 2 r.kpi_overall_avg_package ++ (" LPA. "), true)
          | Except.error _ => Except.ok acc
        else Except.ok acc
  else if strContains qL ("top companies") || strContains qL ("recruiters") then
    match plc with
    | Except.ok r =>
        match r.top_companies with
        | Except.ok comps =>
            let n := (findTopN qL).getD 5
            let topn := comps.take n
            Except.ok (acc.1 ++ ("The top ") ++ toString topn.length ++
              (" recruiting companies (by count) are: ") ++
              String.intercalate (", ") (topn.map Prod.fst) ++ (". "), true)
        | Except.error _ => Except.ok (acc.1 ++ ("Top company data is unavailable. "), acc.2)
    | Except.error _ => Except.ok (acc.1 ++ ("Top company data is unavailable. "), acc.2)
  else if strContains qL ("top skills") || strContains qL ("demand skills") then
    match plc with
    | Except.ok r =>
        match r.top_skills with
        | Except.ok sks =>
            let n := (findTopN qL).getD 5
            let topn := sks.take n
            Except.ok (acc.1 ++ ("The top ") ++ toString topn.length ++
              (" in-demand skills (by frequency for placed students) are: ") ++
              String.intercalate (", ") (topn.map Prod.fst) ++ (". "), true)
        | Except.error _ => Except.ok (acc.1 ++ ("Top skills data is unavailable. "), acc.2)
    | Except.error _ => Except.ok (acc.1 ++ ("Top skills data is unavailable. "), acc.2)
  else Except.ok acc

/-- Exam block of `parse_and_query_data`. -/
def examSection (qL : String) (dept? : Option String)
    (exam : Except String ExamResults) (acc : String × Bool) :
    Except String (String × Bool) :=
  if strContains qL ("average mark") || strContains qL ("avg mark") then
    match dept?, exam with
    | some d, Except.ok r =>
        match List.lookup d r.performance_by_department with
        | some m =>
            Except.ok (acc.1 ++ ("The average mark for ") ++ d ++ (" is ") ++
              fmtFixed 2 m ++ (". "), true)
        | none =>
            Except.error (("Could not find average mark data for department \u0027") ++
              d ++ ("\u0027."))
    | _, _ =>
        if strContains qL ("overall") || dept?.isNone then
          match exam with
          | Except.ok r =>
              Except.ok (acc.1 ++ ("The overall average mark is ") ++
                fmtFixed 2 r.kpi_overall_avg_mark ++ (". "), true)
          | Except.error _ => Except.ok acc
        else Except.ok acc
  else if strContains qL ("top subject") then
    match exam with
    | Except.ok r =>
        match r.subject_performance with
        | Except.ok subs =>
            let n := (findTopN qL).getD 3
            let topn := subs.take n
            Except.ok (acc.1 ++ ("The top ") ++ toString topn.length ++
              (" subjects by average mark are: ") ++
              String.intercalate (", ")
                (topn.map (fun p => p.1 ++ (" (") ++ fmtFixed 1 p.2 ++ (")"))) ++
              (". "), true)
        | Except.error _ => Except.ok (acc.1 ++ ("Top subject data is unavailable. "), acc.2)
    | Except.error _ => Except.ok (acc.1 ++ ("Top subject data is unavailable. "), acc.2)
  else Except.ok acc

/-- Faculty block of `parse_and_query_data`.  Note that
`dept_teaching_ratings` is a dict even when it is an error marker, so the
department lookup inside it simply misses and produces the department-specific
"could not find" message. -/
def facultySection (qL : String) (dept? : Option String)
    (fac : Except String FacultyResults) (acc : String × Bool) :
    Except String (String × Bool) :=
  if (strContains qL ("average rating") || strContains qL ("avg rating")) &&
     (strContains qL ("faculty") || strContains qL ("teaching")) then
    match dept?, fac with
    | some d, Except.ok r =>
        match (match r.dept_teaching_ratings with
               | Except.ok l => List.lookup d l
               | Except.error _ => none) with
        | some rt =>
            Except.ok (acc.1 ++ ("The average faculty rating for ") ++ d ++ (" is ") ++
              fmtFixed 2 rt ++ (". "), true)
        | none =>
            Except.error (("Could not find average faculty rating for department \u0027") ++
              d ++ ("\u0027."))
    | _, _ =>
        if strContains qL ("overall") || dept?.isNone then
          match fac with
          | Except.ok r =>
              Except.ok (acc.1 ++ ("The overall average faculty rating is ") ++
                fmtFixed 2 r.kpi_overall_avg_rating ++ (". "), true)
          | Except.error _ => Except.ok acc
        else Except.ok acc
  else if strContains qL ("top faculty") then
    match fac with
    | Except.ok r =>
        match r.top_faculty with
        | Except.ok facs =>
            let n := (findTopN qL).getD 3
            let topn := facs.take n
            Except.ok (acc.1 ++ ("The top ") ++ toString topn.length ++
              (" faculty by average rating are: ") ++
              String.intercalate (", ")
                (topn.map (fun p => p.1 ++ (" (") ++ fmtFixed 1 p.2 ++ (")"))) ++
              (". "), true)
        | Except.error _ => Except.ok (acc.1 ++ ("Top faculty data is unavailable. "), acc.2)
    | Except.error _ => Except.ok (acc.1 ++ ("Top faculty data is unavailable. "), acc.2)
  else if strContains qL ("top course") then
    match fac with
    | Except.ok r =>
        match r.course_ratings with
        | Except.ok crs =>
            let n := (findTopN qL).getD 3
            let topn := crs.take n
            Except.ok (acc.1 ++ ("The top ") ++ toString topn.length ++
              (" courses by average rating are: ") ++
              String.intercalate (", ")
                (topn.map (fun p => p.1 ++ (" (") ++ fmtFixed 1 p.2 ++ (")"))) ++
              (". "), true)
        | Except.error _ => Except.ok (acc.1 ++ ("Top course data is unavailable. "), acc.2)
    | Except.error _ => Except.ok (acc.1 ++ ("Top course data is unavailable. "), acc.2)
  else Except.ok acc

/-- `parse_and_query_data`: lowercase the question, extract a department from
the pooled department lists (the exam bundle carries no `department_list` key,
so it contributes the empty default), run the three domain blocks in order
(any early `return` short-circuits), then either strip and return the accumulated
summary or return the fixed fallback guidance. -/
def parse_and_query_data (question : String) (exam : Except String ExamResults)
    (plc : Except String PlacementResults) (fac : Except String FacultyResults) : String :=
  let qL := pyLower question
  let dept? := extract_department qL [[], pDeptListE plc, fDeptListE fac]
  match placementSection qL dept? plc (("Data Summary: "), false) with
  | Except.error s => s
  | Except.ok a1 =>
      match examSection qL dept? exam a1 with
      | Except.error s => s
      | Except.ok a2 =>
          match facultySection qL dept? fac a2 with
          | Except.error s => s
          | Except.ok a3 => if a3.2 then pyStrip a3.1 else fallbackMsg

/-- Frame used to refute C3: the faculty dataset lacks the `faculty` and
`course_taught` columns of the declared minimal set, yet processing succeeds. -/
def facNoFacultyCol : Frame :=
  { cols := ["review", "department"]
    rows := [[(("review"), Cell.num 4), (("department"), Cell.str ("CSE"))]] }

/-- Frame used to refute C4: nonempty exam data whose marks all fail numeric
coercion. -/
def examAllBadMarks : Frame :=
  { cols := ["marks", "department", "exam_type", "date"]
    rows := [[(("marks"), Cell.str ("abc")), (("department"), Cell.str ("CSE")),
              (("exam_type"), Cell.str ("final")), (("date"), Cell.null)]] }

/-- Frame for witnessing C6: two distinct genders, all students placed, so the
`"0"` outcome never occurs and must be zero-filled. -/
def placementTwoGenders : Frame :=
  { cols := ["department", "placement", "package_lpa", "cgpa", "gender"]
    rows := [[(("department"), Cell.str ("CSE")), (("placement"), Cell.str ("yes")),
              (("package_lpa"), Cell.num 6), (("cgpa"), Cell.num 8),
              (("gender"), Cell.str ("f"))],
             [(("department"), Cell.str ("CSE")), (("placement"), Cell.str ("yes")),
              (("package_lpa"), Cell.num 7), (("cgpa"), Cell.num 9),
              (("gender"), Cell.str ("m"))]] }

/-- Frame used to refute C8: one department with placement indicators
`[1, 1, 0]`, whose rate rounds to three decimal places. -/
def placementThirds : Frame :=
  { cols := ["department", "placement", "package_lpa", "cgpa", "gender"]
    rows := [[(("department"), Cell.str ("CSE")), (("placement"), Cell.str ("yes")),
              (("package_lpa"), Cell.num 5), (("cgpa"), Cell.num 8),
              (("gender"), Cell.str ("m"))],
             [(("department"), Cell.str ("CSE")), (("placement"), Cell.str ("yes")),
              (("package_lpa"), Cell.num 5), (("cgpa"), Cell.num 8),
              (("gender"), Cell.str ("m"))],
             [(("department"), Cell.str ("CSE")), (("placement"), Cell.str ("no")),
              (("package_lpa"), Cell.num 5), (("cgpa"), Cell.num 8),
              (("gender"), Cell.str ("m"))]] }

/-- Six ranked companies, more than the resolver's default display count. -/
def sixCompanies : List (String × Nat) :=
  [(("Acme"), 6), (("Beta"), 5), (("Corp"), 4), (("Delta"), 3), (("Echo"), 2),
   (("Foxtrot"), 1)]

/-- Six ranked skills. -/
def sixSkills : List (String × Nat) :=
  [(("python"), 6), (("sql"), 5), (("java"), 4), (("c++"), 3), (("excel"), 2),
   (("go"), 1)]

/-- Placement bundle with six ranked companies and skills, used to show the
resolver truncates to its built-in defaults. -/
def placementSixRanked : PlacementResults :=
  { kpi_overall_placement_rate := ("50.0%")
    kpi_overall_avg_package := 5
    placement_rate_by_dept := []
    package_by_dept := []
    cgpa_package_data := ([], [])
    top_companies := Except.ok sixCompanies
    top_skills := Except.ok sixSkills
    gender_placement := Except.error ("Insufficient distinct gender values")
    cgpa_distribution := []
    avg_cgpa_by_placement := []
    department_list := [] }

/-- Exam bundle with four ranked subjects. -/
def examFourSubjects : ExamResults :=
  { kpi_overall_avg_mark := 70
    performance_by_department := []
    grade_distribution := []
    subject_performance := Except.ok
      [(("Math"), 91), (("Physics"), 82), (("Chem"), 73), (("Bio"), 64)]
    marks_comparison := (none, none)
    semester_performance := Except.error ("No valid dates") }

/-- Faculty bundle with four ranked faculty and courses. -/
def facultyFourRanked : FacultyResults :=
  { kpi_overall_avg_rating := 4
    dept_teaching_ratings := Except.error ("No valid department data")
    semester_ratings := Except.error ("No valid semester data")
    yearly_average_trend := Except.error ("No valid student_year data")
    top_faculty := Except.ok
      [(("Rao"), 5), (("Sen"), 45/10), (("Das"), 4), (("Roy"), 35/10)]
    course_ratings := Except.ok
      [(("OS"), 5), (("DB"), 45/10), (("ML"), 4), (("NW"), 35/10)]
    rating_distribution := []
    department_list := [] }

/-- Placement bundle used to refute C2: overall KPIs present for two domains. -/
def placementKpiOnly : PlacementResults :=
  { kpi_overall_placement_rate := ("75.0%")
    kpi_overall_avg_package := 5
    placement_rate_by_dept := []
    package_by_dept := []
    cgpa_package_data := ([], [])
    top_companies := Except.error ("\u0027company\u0027 column missing or no placements")
    top_skills := Except.error ("\u0027skills\u0027 column missing or no placements")
    gender_placement := Except.error ("Insufficient distinct gender values")
    cgpa_distribution := []
    avg_cgpa_by_placement := []
    department_list := [] }

/-- Exam bundle used to refute C2. -/
def examKpiOnly : ExamResults :=
  { kpi_overall_avg_mark := 125/2
    performance_by_department := []
    grade_distribution := []
    subject_performance := Except.error ("Subjects column missing")
    marks_comparison := (none, none)
    semester_performance := Except.error ("No valid dates") }

/-- Frame for witnessing C10: a single lowercase department spelling `cse`. -/
def placementLowercaseDept : Frame :=
  { cols := ["department", "placement", "package_lpa", "cgpa", "gender"]
    rows := [[(("department"), Cell.str ("cse")), (("placement"), Cell.str ("yes")),
              (("package_lpa"), Cell.num 6), (("cgpa"), Cell.num 8),
              (("gender"), Cell.str ("m"))]] }

/-- The bundle `process_placement_data` produces for `placementLowercaseDept`:
`department_list` holds the uppercased token `CSE`, while the per-department
mappings keep the raw spelling `cse`. -/
def placementLowercaseBundle : PlacementResults :=
  { kpi_overall_placement_rate := ("100.0%")
    kpi_overall_avg_package := 6
    placement_rate_by_dept := [(("cse"), 1)]
    package_by_dept := [(("cse"), 6)]
    cgpa_package_data := ([8], [6])
    top_companies := Except.error ("\u0027company\u0027 column missing or no placements")
    top_skills := Except.error ("\u0027skills\u0027 column missing or no placements")
    gender_placement := Except.error ("Insufficient distinct gender values")
    cgpa_distribution := [(("< 7"), 0), (("7-8"), 0), (("8-9"), 1), (("9+"), 0)]
    avg_cgpa_by_placement := [(("Placed"), 8)]
    department_list := [("CSE")] }

/-- One-row exam frame for witnessing C8. -/
def examOneRow : Frame :=
  { cols := ["marks", "department", "exam_type", "date"]
    rows := [[(("marks"), Cell.num 80), (("department"), Cell.str ("CSE")),
              (("exam_type"), Cell.str ("final")), (("date"), Cell.null)]] }

/-- The bundle `process_exam_data` produces for `examOneRow`. -/
def examOneRowBundle : ExamResults :=
  { kpi_overall_avg_mark := 80
    performance_by_department := [(("CSE"), 80)]
    grade_distribution := [(("A+"), 0), (("A"), 1), (("B"), 0), (("C"), 0),
      (("D"), 0), (("F"), 0)]
    subject_performance := Except.error ("Subjects column missing")
    marks_comparison := (none, some 80)
    semester_performance := Except.error ("No valid dates") }

/-- One-row faculty frame for witnessing C8. -/
def facultyOneRow : Frame :=
  { cols := ["review", "department", "faculty", "course_taught"]
    rows := [[(("review"), Cell.num 4), (("department"), Cell.str ("CSE")),
              (("faculty"), Cell.str ("Rao")), (("course_taught"), Cell.str ("OS"))]] }

/-- The bundle `process_faculty_data` produces for `facultyOneRow`. -/
def facultyOneRowBundle : FacultyResults :=
  { kpi_overall_avg_rating := 4
    dept_teaching_ratings := Except.ok [(("CSE"), 4)]
    semester_ratings := Except.error ("\u0027semester\u0027 column missing")
    yearly_average_trend := Except.error ("\u0027student_year\u0027 column missing")
    top_faculty := Except.ok [(("Rao"), 4)]
    course_ratings := Except.ok [(("OS"), 4)]
    rating_distribution := [(("1"), 0), (("2"), 0), (("3"), 0), (("4"), 1), (("5"), 0)]
    department_list := [("CSE")] }

/-! ### Theorems -/

theorem find?_longest (p : String → Bool) :
    ∀ l : List String, List.Pairwise (fun a b => lenGeB a b = true) l →
      ∀ d, l.find? p = some d → ∀ e ∈ l, d.length < e.length → p e = false := by
  intro l
  induction l with
  | nil => intro _ d hd; simp [List.find?] at hd
  | cons a t ih =>
      intro hpw d hd e he hlen
      rw [List.pairwise_cons] at hpw
      by_cases hpa : p a = true
      · rw [List.find?_cons_of_pos _ hpa] at hd
        injection hd with hda
        subst hda
        rw [List.mem_cons] at he
        rcases he with rfl | he'
        · exact absurd hlen (lt_irrefl _)
        · have := hpw.1 e he'
          unfold lenGeB at this
          exact absurd hlen (Nat.not_lt.mpr (of_decide_eq_true this))
      · have hpa' : p a = false := by
          cases hq : p a
          · rfl
          · exact absurd hq hpa
        rw [List.find?_cons_of_neg _ hpa] at hd
        rw [List.mem_cons] at he
        rcases he with rfl | he'
        · exact hpa'
        · exact ih hpw.2 d hd e he' hlen

/-- C5: `extract_department` scans the candidates longest-first and returns
the first whole-token match of the uppercased question: a returned candidate
is a whole-token match and every strictly longer candidate is not; `none` is
returned exactly when no candidate matches as a whole token. -/
theorem c5_extract_department_longest_token (q : String) (lists : List (List String)) :
    (∀ d, extract_department q lists = some d →
      tokenMatchS (pyUpper q) d = true ∧
      ∀ e ∈ joinL lists, d.length < e.length → tokenMatchS (pyUpper q) e = false) ∧
    (extract_department q lists = none →
      ∀ e ∈ joinL lists, tokenMatchS (pyUpper q) e = false) := by
  constructor
  · intro d hd
    simp only [extract_department] at hd
    refine ⟨List.find?_some hd, ?_⟩
    intro e he hlen
    have hpw := pairwise_sortLe lenGeB lenGeB_total lenGeB_trans (joinL lists).dedup
    have he' : e ∈ sortLe lenGeB (joinL lists).dedup := by
      rw [mem_sortLe]
      exact List.mem_dedup.mpr he
    exact find?_longest _ _ hpw d hd e he' hlen
  · intro hnone e he
    simp only [extract_department] at hnone
    have he' : e ∈ sortLe lenGeB (joinL lists).dedup := by
      rw [mem_sortLe]
      exact List.mem_dedup.mpr he
    have := List.find?_eq_none.mp hnone e he'
    cases hq : tokenMatchS (pyUpper q) e
    · rfl
    · exact absurd hq this

/-- Witness for C5: with known departments `CS` and `CSE`, the question
`"average package for CSE"` resolves to `CSE` (a whole-token match), never to
the shorter substring `CS`. -/
theorem c5_extract_department_witness :
    extract_department ("average package for CSE") [["CS", "CSE"]] = some ("CSE") ∧
    tokenMatchS (pyUpper ("average package for CSE")) ("CSE") = true ∧
    tokenMatchS (pyUpper ("average package for CSE")) ("CS") = false := by
  refine ⟨by decide, ?_, by decide⟩
  exact ((c5_extract_department_longest_token ("average package for CSE")
    [["CS", "CSE"]]).1 ("CSE") (by decide)).1

/-- C9: a question matching none of the keyword intent patterns makes
`parse_and_query_data` return the single fixed guidance string (a total
function of its inputs, hence no exception, and never an empty payload). -/
theorem c9_no_intent_fallback (q : String) (exam : Except String ExamResults)
    (plc : Except String PlacementResults) (fac : Except String FacultyResults)
    (h1 : strContains (pyLower q) ("placement rate") = false)
    (h2 : strContains (pyLower q) ("average package") = false)
    (h3 : strContains (pyLower q) ("avg package") = false)
    (h4 : strContains (pyLower q) ("average salary") = false)
    (h5 : strContains (pyLower q) ("top companies") = false)
    (h6 : strContains (pyLower q) ("recruiters") = false)
    (h7 : strContains (pyLower q) ("top skills") = false)
    (h8 : strContains (pyLower q) ("demand skills") = false)
    (h9 : strContains (pyLower q) ("average mark") = false)
    (h10 : strContains (pyLower q) ("avg mark") = false)
    (h11 : strContains (pyLower q) ("top subject") = false)
    (h12 : ((strContains (pyLower q) ("average rating") ||
             strContains (pyLower q) ("avg rating")) &&
            (strContains (pyLower q) ("faculty") ||
             strContains (pyLower q) ("teaching"))) = false)
    (h13 : strContains (pyLower q) ("top faculty") = false)
    (h14 : strContains (pyLower q) ("top course") = false) :
    parse_and_query_data q exam plc fac = fallbackMsg ∧ fallbackMsg ≠ ("") := by
  constructor
  · simp [parse_and_query_data, placementSection, examSection, facultySection,
      h1, h2, h3, h4, h5, h6, h7, h8, h9, h10, h11, h12, h13, h14]
  · decide

/-- Witness for C9: the full no-match question returns the fallback. -/
theorem c9_no_intent_fallback_witness :
    parse_and_query_data ("what is the weather today") (Except.error ("a"))
      (Except.error ("b")) (Except.error ("c")) = fallbackMsg :=
  (c9_no_intent_fallback ("what is the weather today") (Except.error ("a"))
    (Except.error ("b")) (Except.error ("c")) (by decide) (by decide) (by decide)
    (by decide) (by decide) (by decide) (by decide) (by decide) (by decide)
    (by decide) (by decide) (by decide) (by decide) (by decide)).1

/-- Counterexample to C3: for the evaluation domain, a dataset missing the
declared required columns `faculty` and `course_taught` does NOT produce a
bundle containing only a missing-column error — `process_faculty_data`
returns a full `Except.ok` bundle (only `review` aborts processing). -/
theorem c3_counterexample_faculty_soft_check :
    (("faculty") ∈ facNoFacultyCol.cols) = False ∧
    (("course_taught") ∈ facNoFacultyCol.cols) = False ∧
    (process_faculty_data facNoFacultyCol).isOk = true := by
  refine ⟨by simp [facNoFacultyCol], by simp [facNoFacultyCol], ?_⟩
  with_unfolding_all decide

/-- C3 (amended): the academic and placement aggregators abort with a
missing-column error naming every absent required column; the evaluation
aggregator aborts only when `review` is absent (its other declared columns
merely degrade their own metrics). -/
theorem c3_missing_column_abort (e p f : Frame)
    (he : e.rows.isEmpty = false)
    (hemiss : (examRequired.filter (fun c => !(e.cols.contains c))).isEmpty = false)
    (hp : p.rows.isEmpty = false)
    (hpmiss : (placementRequired.filter (fun c => !(p.cols.contains c))).isEmpty = false)
    (hf : f.rows.isEmpty = false)
    (hfrev : f.cols.contains ("review") = false) :
    process_exam_data e = Except.error (("Missing essential exam column(s): ") ++
      String.intercalate (", ")
        (examRequired.filter (fun c => !(e.cols.contains c)))) ∧
    process_placement_data p = Except.error (("Missing essential placement column(s): ") ++
      String.intercalate (", ")
        (placementRequired.filter (fun c => !(p.cols.contains c)))) ∧
    process_faculty_data f = Except.error ("Missing essential faculty column(s): review") := by
  refine ⟨?_, ?_, ?_⟩
  · simp only [process_exam_data, he, hemiss, Bool.false_eq_true, if_false]
  · simp only [process_placement_data, hp, hpmiss, Bool.false_eq_true, if_false]
  · simp only [process_faculty_data, hf, hfrev, Bool.false_eq_true, Bool.not_false,
      if_false, eq_self_iff_true, if_true]

/-- Witness for the amended C3 at concrete frames missing one column each. -/
theorem c3_missing_column_abort_witness :
    process_exam_data
        { cols := ["department", "exam_type", "date"]
          rows := [[(("department"), Cell.str ("CSE"))]] } =
      Except.error ("Missing essential exam column(s): marks") ∧
    process_placement_data
        { cols := ["department", "placement", "package_lpa", "cgpa"]
          rows := [[(("department"), Cell.str ("CSE"))]] } =
      Except.error ("Missing essential placement column(s): gender") ∧
    process_faculty_data
        { cols := ["department"]
          rows := [[(("department"), Cell.str ("CSE"))]] } =
      Except.error ("Missing essential faculty column(s): review") :=
  c3_missing_column_abort
    { cols := ["department", "exam_type", "date"]
      rows := [[(("department"), Cell.str ("CSE"))]] }
    { cols := ["department", "placement", "package_lpa", "cgpa"]
      rows := [[(("department"), Cell.str ("CSE"))]] }
    { cols := ["department"]
      rows := [[(("department"), Cell.str ("CSE"))]] }
    (by decide) (by decide) (by decide) (by decide) (by decide) (by decide)

/-- Counterexample to C4: when coercion empties the exam dataset the sole
error is the cleaning-specific message, not the claimed
`"<domain> data is empty or could not be loaded"` text. -/
theorem c4_counterexample_cleaning_message :
    process_exam_data examAllBadMarks =
      Except.error ("No valid numeric marks found in exam data after cleaning.") ∧
    ("No valid numeric marks found in exam data after cleaning.") ≠
      ("Exam data is empty or could not be loaded.") := by
  constructor
  · with_unfolding_all rfl
  · decide

/-- C4 (amended): an initially empty record set yields the sole error
`"<Domain> data is empty or could not be loaded."`; a record set emptied by
numeric coercion (or, for evaluation, by the rating-scale filter) yields a
sole domain-specific cleaning error instead; in every case no metrics are
computed. -/
theorem c4_empty_dataset_errors (e p f : Frame) :
    (e.rows = [] →
      process_exam_data e = Except.error ("Exam data is empty or could not be loaded.")) ∧
    (p.rows = [] →
      process_placement_data p =
        Except.error ("Placement data is empty or could not be loaded.")) ∧
    (f.rows = [] →
      process_faculty_data f =
        Except.error ("Faculty data is empty or could not be loaded.")) ∧
    (e.rows ≠ [] →
      (examRequired.filter (fun c => !(e.cols.contains c))).isEmpty = true →
      examRows e = [] →
      process_exam_data e =
        Except.error ("No valid numeric marks found in exam data after cleaning.")) ∧
    (p.rows ≠ [] →
      (placementRequired.filter (fun c => !(p.cols.contains c))).isEmpty = true →
      placementCleanRows p = [] →
      process_placement_data p =
        Except.error ("No valid CGPA or Package data found after cleaning.")) ∧
    (f.rows ≠ [] →
      f.cols.contains ("review") = true →
      facultyValidScale f = [] →
      process_faculty_data f =
        Except.error ("No valid faculty ratings found in the range (1-5) after cleaning.")) := by
  refine ⟨?_, ?_, ?_, ?_, ?_, ?_⟩
  · intro h; simp [process_exam_data, h]
  · intro h; simp [process_placement_data, h]
  · intro h; simp [process_faculty_data, h]
  · intro h hcols hrows
    have h' : e.rows.isEmpty = false := by
      cases hr : e.rows
      · exact absurd hr h
      · rfl
    simp only [process_exam_data, h', hcols, hrows, List.isEmpty_nil,
      Bool.false_eq_true, if_false, eq_self_iff_true, if_true]
  · intro h hcols hrows
    have h' : p.rows.isEmpty = false := by
      cases hr : p.rows
      · exact absurd hr h
      · rfl
    simp only [process_placement_data, h', hcols, hrows, List.isEmpty_nil,
      Bool.false_eq_true, if_false, eq_self_iff_true, if_true]
  · intro h hcols hrows
    have h' : f.rows.isEmpty = false := by
      cases hr : f.rows
      · exact absurd hr h
      · rfl
    simp only [process_faculty_data, h', hcols, hrows, List.isEmpty_nil,
      Bool.false_eq_true, Bool.not_true, if_false, eq_self_iff_true, if_true]

/-- Witness for the amended C4 at the empty exam frame. -/
theorem c4_empty_dataset_errors_witness :
    process_exam_data { cols := ["marks"], rows := [] } =
      Except.error ("Exam data is empty or could not be loaded.") :=
  (c4_empty_dataset_errors { cols := ["marks"], rows := [] }
    { cols := [], rows := [] } { cols := [], rows := [] }).1 rfl

/-- C7: each CGPA in the 0–10 scale falls into exactly one of the four fixed
buckets (`countP` over the labels is exactly 1), with lower bounds inclusive
and upper bounds exclusive; the distribution always reports a count for all
four buckets; and the values `6.9, 7.5, 8.9, 9.0` land in
`< 7, 7-8, 8-9, 9+` respectively, each with count 1. -/
theorem c7_cgpa_bucketing (q : ℚ) (rows : List PRow) :
    (0 ≤ q → q < 7 → cgpaBucket q = some ("< 7")) ∧
    (7 ≤ q → q < 8 → cgpaBucket q = some ("7-8")) ∧
    (8 ≤ q → q < 9 → cgpaBucket q = some ("8-9")) ∧
    (9 ≤ q → q ≤ 10 → cgpaBucket q = some ("9+")) ∧
    (0 ≤ q → q ≤ 10 → cgpaLabels.countP (fun l => cgpaBucket q == some l) = 1) ∧
    ((cgpaDist rows).map Prod.fst = cgpaLabels) ∧
    (cgpaDist [{ dept := Cell.null, pnum := 0, gender := ("Other"), cgpa := 69/10,
                 pkg := 0, company := Cell.null, skills := Cell.null },
               { dept := Cell.null, pnum := 0, gender := ("Other"), cgpa := 75/10,
                 pkg := 0, company := Cell.null, skills := Cell.null },
               { dept := Cell.null, pnum := 0, gender := ("Other"), cgpa := 89/10,
                 pkg := 0, company := Cell.null, skills := Cell.null },
               { dept := Cell.null, pnum := 0, gender := ("Other"), cgpa := 9,
                 pkg := 0, company := Cell.null, skills := Cell.null }] =
      [(("< 7"), 1), (("7-8"), 1), (("8-9"), 1), (("9+"), 1)]) := by
  have hb1 : ∀ x : ℚ, 0 ≤ x → x < 7 → cgpaBucket x = some ("< 7") := by
    intro x h0 h7
    simp only [cgpaBucket, if_pos (And.intro h0 h7)]
  have hb2 : ∀ x : ℚ, 7 ≤ x → x < 8 → cgpaBucket x = some ("7-8") := by
    intro x h7 h8
    have : ¬(0 ≤ x ∧ x < 7) := by
      intro hc
      linarith [hc.2]
    simp only [cgpaBucket, if_neg this, if_pos (And.intro h7 h8)]
  have hb3 : ∀ x : ℚ, 8 ≤ x → x < 9 → cgpaBucket x = some ("8-9") := by
    intro x h8 h9
    have n1 : ¬(0 ≤ x ∧ x < 7) := by intro hc; linarith [hc.2]
    have n2 : ¬(7 ≤ x ∧ x < 8) := by intro hc; linarith [hc.2]
    simp only [cgpaBucket, if_neg n1, if_neg n2, if_pos (And.intro h8 h9)]
  have hb4 : ∀ x : ℚ, 9 ≤ x → x ≤ 10 → cgpaBucket x = some ("9+") := by
    intro x h9 h10
    have n1 : ¬(0 ≤ x ∧ x < 7) := by intro hc; linarith [hc.2]
    have n2 : ¬(7 ≤ x ∧ x < 8) := by intro hc; linarith [hc.2]
    have n3 : ¬(8 ≤ x ∧ x < 9) := by intro hc; linarith [hc.2]
    have hlt : x < (101 : ℚ) / 10 := by linarith
    simp only [cgpaBucket, if_neg n1, if_neg n2, if_neg n3,
      if_pos (And.intro h9 hlt)]
  refine ⟨hb1 q, hb2 q, hb3 q, hb4 q, ?_, ?_, ?_⟩
  · intro h0 h10
    by_cases c1 : q < 7
    · simp only [hb1 q h0 c1]
      decide
    · by_cases c2 : q < 8
      · simp only [hb2 q (by linarith) c2]
        decide
      · by_cases c3 : q < 9
        · simp only [hb3 q (by linarith) c3]
          decide
        · simp only [hb4 q (by linarith) h10]
          decide
  · rfl
  · with_unfolding_all rfl

/-- Witness for C7 at the concrete value 6.9 and the four-value record set. -/
theorem c7_cgpa_bucketing_witness :
    cgpaBucket ((69 : ℚ)/10) = some ("< 7") ∧
    cgpaLabels.countP (fun l => cgpaBucket ((75 : ℚ)/10) == some l) = 1 := by
  constructor
  · exact (c7_cgpa_bucketing ((69 : ℚ)/10) []).1 (by norm_num) (by norm_num)
  · exact (c7_cgpa_bucketing ((75 : ℚ)/10) []).2.2.2.2.1 (by norm_num) (by norm_num)

theorem genderStd_ne_unknown (c : Cell) : genderStd c ≠ ("Unknown") := by
  simp only [genderStd]
  split_ifs <;> decide

theorem placementCleanRows_gender_ne_unknown (f : Frame) :
    ∀ r ∈ placementCleanRows f, r.gender ≠ ("Unknown") := by
  intro r hr
  unfold placementCleanRows at hr
  rcases List.mem_filterMap.mp hr with ⟨row, _, hrow⟩
  revert hrow
  cases toNumeric (getCell row ("cgpa")) <;>
    cases toNumeric (getCell row ("package_lpa")) <;>
    intro hrow <;> simp at hrow
  rw [← hrow]
  exact genderStd_ne_unknown _

theorem placementCleanRows_filter_unknown (f : Frame) :
    (placementCleanRows f).filter (fun r => r.gender ≠ ("Unknown")) =
      placementCleanRows f := by
  rw [List.filter_eq_self]
  intro r hr
  exact decide_eq_true (placementCleanRows_gender_ne_unknown f r hr)

/-- C6: in the gender-vs-placement cross-tabulation, every gender row always
carries both outcome keys `"0"` and `"1"` (zero-filled when an outcome never
occurs), and whenever fewer than two distinct gender categories remain after
excluding `"Unknown"` the metric degrades to the insufficient-distinct-values
error instead of a degenerate table. -/
theorem c6_gender_crosstab (f : Frame) :
    ((((placementCleanRows f).filter (fun r => r.gender ≠ ("Unknown"))).map
        PRow.gender).dedup.length < 2 →
      genderPlacement (placementCleanRows f) =
        Except.error ("Insufficient distinct gender values")) ∧
    (∀ t, genderPlacement (placementCleanRows f) = Except.ok t →
      ∀ g cs, (g, cs) ∈ t →
        (List.lookup ("0") cs).isSome = true ∧
        (List.lookup ("1") cs).isSome = true) := by
  constructor
  · intro hlt
    have hlt' : ((placementCleanRows f).map PRow.gender).dedup.length < 2 := by
      rwa [placementCleanRows_filter_unknown] at hlt
    have hfalse : decide (((placementCleanRows f).map PRow.gender).dedup.length > 1) =
        false := decide_eq_false (by omega)
    simp only [genderPlacement, hfalse, Bool.false_and, Bool.false_eq_true, if_false]
  · intro t ht g cs hmem
    simp only [genderPlacement] at ht
    split at ht
    · split at ht
      · exact Except.noConfusion ht
      · have ht' := Except.ok.inj ht
        rw [← ht'] at hmem
        rcases List.mem_map.mp hmem with ⟨k, _, hkeq⟩
        rw [Prod.mk.injEq] at hkeq
        rw [← hkeq.2]
        constructor <;> rfl
    · exact Except.noConfusion ht

/-- Witness for C6: with genders `f`/`m` and every student placed, the
crosstab zero-fills the `"0"` outcome for both rows, and the theorem yields
the presence of both outcome keys. -/
theorem c6_gender_crosstab_witness :
    genderPlacement (placementCleanRows placementTwoGenders) =
      Except.ok [(("Female"), [(("0"), 0), (("1"), 1)]),
                 (("Male"), [(("0"), 0), (("1"), 1)])] ∧
    (List.lookup ("0") [(("0"), 0), (("1"), 1)]).isSome = true ∧
    (List.lookup ("1") [(("0"), 0), (("1"), 1)]).isSome = true := by
  refine ⟨by with_unfolding_all rfl, ?_, ?_⟩
  · exact ((c6_gender_crosstab placementTwoGenders).2 _ (by with_unfolding_all rfl)
      ("Female") [(("0"), 0), (("1"), 1)] (by with_unfolding_all decide)).1
  · exact ((c6_gender_crosstab placementTwoGenders).2 _ (by with_unfolding_all rfl)
      ("Female") [(("0"), 0), (("1"), 1)] (by with_unfolding_all decide)).2

theorem groupMeanR_den (nd : Nat) (pairs : List (String × ℚ)) :
    ∀ kv ∈ groupMeanR nd pairs, (kv.2 * (10 : ℚ) ^ nd).den = 1 := by
  intro kv hkv
  unfold groupMeanR at hkv
  rcases List.mem_map.mp hkv with ⟨p, _, hpe⟩
  rw [← hpe]
  exact roundTo_den nd p.2

theorem chain'_groupMeanR (nd : Nat) (pairs : List (String × ℚ)) :
    List.Chain' (fun a b : String × ℚ => strLeB a.1 b.1 = true) (groupMeanR nd pairs) := by
  unfold groupMeanR groupMeanKey
  rw [List.chain'_map, List.chain'_map]
  exact chain'_sortLe strLeB strLeB_total _

theorem exam_ok_perf (e : Frame) (er : ExamResults)
    (h : process_exam_data e = Except.ok er) :
    er.performance_by_department = groupMeanR 2 (examKeyPairs e ("department")) := by
  simp only [process_exam_data] at h
  split at h
  · exact Except.noConfusion h
  · split at h
    · split at h
      · exact Except.noConfusion h
      · rw [← Except.ok.inj h]
    · exact Except.noConfusion h

theorem placement_ok_fields (p : Frame) (pr : PlacementResults)
    (h : process_placement_data p = Except.ok pr) :
    pr.placement_rate_by_dept =
      groupMeanR 3 (validDeptPairs (placementCleanRows p) (fun r => (r.pnum : ℚ))) ∧
    pr.package_by_dept =
      groupMeanR 2 (validDeptPairs
        ((placementCleanRows p).filter (fun r => r.pnum == 1)) PRow.pkg) ∧
    pr.department_list =
      sortLe strLeB (((placementCleanRows p).map
        (fun r => pyUpper (cellStrNa r.dept))).dedup) := by
  simp only [process_placement_data] at h
  split at h
  · exact Except.noConfusion h
  · split at h
    · split at h
      · exact Except.noConfusion h
      · rw [← Except.ok.inj h]
        exact ⟨rfl, rfl, rfl⟩
    · exact Except.noConfusion h

theorem faculty_ok_dept_ratings (f : Frame) (fr : FacultyResults)
    (dl : List (String × ℚ))
    (h : process_faculty_data f = Except.ok fr)
    (hdl : fr.dept_teaching_ratings = Except.ok dl) :
    dl = groupMeanR 2 (validStrPairs (facultyValidScale f) FRow.dept) := by
  simp only [process_faculty_data] at h
  split at h
  · exact Except.noConfusion h
  · split at h
    · exact Except.noConfusion h
    · split at h
      · exact Except.noConfusion h
      · rw [← Except.ok.inj h] at hdl
        dsimp only at hdl
        split at hdl
        · split at hdl
          · exact Except.noConfusion hdl
          · exact (Except.ok.inj hdl).symm
        · exact Except.noConfusion hdl

/-- Counterexample to C8: `placement_rate_by_dept` is rounded to three (not
two) decimal places — with indicators `[1, 1, 0]` the stored rate is `0.667`,
which is not a multiple of `1/100`. -/
theorem c8_counterexample_rate_three_decimals :
    (match process_placement_data placementThirds with
      | Except.ok r => r.placement_rate_by_dept
      | Except.error _ => []) = [(("CSE"), (667 : ℚ)/1000)] ∧
    ¬((((667 : ℚ)/1000) * 100).den = 1) := by
  constructor
  · with_unfolding_all rfl
  · with_unfolding_all decide

/-- C8 (amended): grouped per-key means are rounded to two decimal places in
`performance_by_department`, `package_by_dept` and `dept_teaching_ratings`,
but to three decimal places in `placement_rate_by_dept`; the group keys of
all four mappings appear in ascending lexicographic order. -/
theorem c8_group_round_sorted (e p f : Frame) (er : ExamResults)
    (pr : PlacementResults) (fr : FacultyResults) (dl : List (String × ℚ))
    (hok_e : process_exam_data e = Except.ok er)
    (hok_p : process_placement_data p = Except.ok pr)
    (hok_f : process_faculty_data f = Except.ok fr)
    (hdl : fr.dept_teaching_ratings = Except.ok dl) :
    (∀ kv ∈ er.performance_by_department, (kv.2 * 100).den = 1) ∧
    (∀ kv ∈ pr.package_by_dept, (kv.2 * 100).den = 1) ∧
    (∀ kv ∈ dl, (kv.2 * 100).den = 1) ∧
    (∀ kv ∈ pr.placement_rate_by_dept, (kv.2 * 1000).den = 1) ∧
    List.Chain' (fun a b => strLeB a.1 b.1 = true) er.performance_by_department ∧
    List.Chain' (fun a b => strLeB a.1 b.1 = true) pr.package_by_dept ∧
    List.Chain' (fun a b => strLeB a.1 b.1 = true) dl ∧
    List.Chain' (fun a b => strLeB a.1 b.1 = true) pr.placement_rate_by_dept := by
  have h100 : (100 : ℚ) = (10 : ℚ) ^ (2 : Nat) := by norm_num
  have h1000 : (1000 : ℚ) = (10 : ℚ) ^ (3 : Nat) := by norm_num
  have he := exam_ok_perf e er hok_e
  have hp := placement_ok_fields p pr hok_p
  have hf := faculty_ok_dept_ratings f fr dl hok_f hdl
  refine ⟨?_, ?_, ?_, ?_, ?_, ?_, ?_, ?_⟩
  · rw [he, h100]; exact groupMeanR_den 2 _
  · rw [hp.2.1, h100]; exact groupMeanR_den 2 _
  · rw [hf, h100]; exact groupMeanR_den 2 _
  · rw [hp.1, h1000]; exact groupMeanR_den 3 _
  · rw [he]; exact chain'_groupMeanR 2 _
  · rw [hp.2.1]; exact chain'_groupMeanR 2 _
  · rw [hf]; exact chain'_groupMeanR 2 _
  · rw [hp.1]; exact chain'_groupMeanR 3 _

/-- Witness for the amended C8 on one-row frames: the stored per-department
values are exact multiples of `1/100` (resp. `1/1000`) and the key lists are
lexicographically sorted. -/
theorem c8_group_round_sorted_witness :
    (((80 : ℚ) * 100).den = 1) ∧
    (((1 : ℚ) * 1000).den = 1) ∧
    List.Chain' (fun a b => strLeB a.1 b.1 = true) [(("CSE"), (80 : ℚ))] := by
  refine ⟨?_, ?_, ?_⟩
  · exact (c8_group_round_sorted examOneRow placementLowercaseDept facultyOneRow
      examOneRowBundle placementLowercaseBundle facultyOneRowBundle [(("CSE"), 4)]
      (by with_unfolding_all rfl) (by with_unfolding_all rfl)
      (by with_unfolding_all rfl) rfl).1 (("CSE"), 80) (by with_unfolding_all decide)
  · exact (c8_group_round_sorted examOneRow placementLowercaseDept facultyOneRow
      examOneRowBundle placementLowercaseBundle facultyOneRowBundle [(("CSE"), 4)]
      (by with_unfolding_all rfl) (by with_unfolding_all rfl)
      (by with_unfolding_all rfl) rfl).2.2.2.1 (("cse"), 1) (by with_unfolding_all decide)
  · exact (c8_group_round_sorted examOneRow placementLowercaseDept facultyOneRow
      examOneRowBundle placementLowercaseBundle facultyOneRowBundle [(("CSE"), 4)]
      (by with_unfolding_all rfl) (by with_unfolding_all rfl)
      (by with_unfolding_all rfl) rfl).2.2.2.2.1

theorem pyStrip_append_dot_space (v : String) (hv : trimL v.data = v.data) :
    pyStrip (v ++ (". ")) = v ++ (".") := by
  unfold pyStrip
  have hdata : (v ++ (". ")).data = v.data ++ [ '.', ' ' ] := rfl
  rw [hdata]
  have htl : trimL (v.data ++ [ '.', ' ' ]) = v.data ++ [ '.', ' ' ] := by
    cases hd : v.data with
    | nil => rfl
    | cons c rest =>
        cases hq : c.isWhitespace with
        | false => simp [trimL, List.dropWhile_cons, hq]
        | true =>
            exfalso
            rw [hd] at hv
            unfold trimL at hv
            rw [List.dropWhile_cons, if_pos hq] at hv
            have hle := (@List.dropWhile_sublist _ rest
              (fun ch => ch.isWhitespace)).length_le
            rw [hv] at hle
            simp at hle
  rw [htl, trimR_dot_space]
  rfl

/-- Counterexample to C1: with six ranked companies and a question carrying no
numeric token next to `top`, the composed answer lists only the default five
keys, not all six. -/
theorem c1_counterexample_default_truncation :
    parse_and_query_data ("top companies") (Except.error ("x"))
        (Except.ok placementSixRanked) (Except.error ("y")) =
      ("Data Summary: The top 5 recruiting companies (by count) are: Acme, Beta, Corp, Delta, Echo.") ∧
    sixCompanies.length = 6 ∧
    placementSixRanked.top_companies = Except.ok sixCompanies := by
  refine ⟨by with_unfolding_all rfl, by decide, rfl⟩

/-- C1 (amended): for every ranking question the composed answer lists the
first `min(N, available)` ranked keys, comma-joined, where `N` is the explicit
numeric token after `top` when the question carries one and otherwise the
built-in default (5 for top companies and top skills, 3 for top subjects, top
faculty and top courses); in particular, without an explicit count the answer
is truncated to the default rather than listing all available keys. -/
theorem c1_ranking_caps_and_override :
    (∀ (q : String) (exam : Except String ExamResults)
       (fac : Except String FacultyResults) (pr : PlacementResults)
       (comps : List (String × Nat)),
      strContains (pyLower q) ("placement rate") = false →
      (strContains (pyLower q) ("average package") ||
        strContains (pyLower q) ("avg package") ||
        strContains (pyLower q) ("average salary")) = false →
      (strContains (pyLower q) ("top companies") ||
        strContains (pyLower q) ("recruiters")) = true →
      (strContains (pyLower q) ("average mark") ||
        strContains (pyLower q) ("avg mark")) = false →
      strContains (pyLower q) ("top subject") = false →
      ((strContains (pyLower q) ("average rating") ||
        strContains (pyLower q) ("avg rating")) &&
       (strContains (pyLower q) ("faculty") ||
        strContains (pyLower q) ("teaching"))) = false →
      strContains (pyLower q) ("top faculty") = false →
      strContains (pyLower q) ("top course") = false →
      pr.top_companies = Except.ok comps →
      parse_and_query_data q exam (Except.ok pr) fac =
        ("Data Summary: ") ++ ("The top ") ++
          toString (comps.take ((findTopN (pyLower q)).getD 5)).length ++
          (" recruiting companies (by count) are: ") ++
          String.intercalate (", ")
            ((comps.take ((findTopN (pyLower q)).getD 5)).map Prod.fst) ++ (".")) ∧
    (∀ (q : String) (exam : Except String ExamResults)
       (fac : Except String FacultyResults) (pr : PlacementResults)
       (sks : List (String × Nat)),
      strContains (pyLower q) ("placement rate") = false →
      (strContains (pyLower q) ("average package") ||
        strContains (pyLower q) ("avg package") ||
        strContains (pyLower q) ("average salary")) = false →
      (strContains (pyLower q) ("top companies") ||
        strContains (pyLower q) ("recruiters")) = false →
      (strContains (pyLower q) ("top skills") ||
        strContains (pyLower q) ("demand skills")) = true →
      (strContains (pyLower q) ("average mark") ||
        strContains (pyLower q) ("avg mark")) = false →
      strContains (pyLower q) ("top subject") = false →
      ((strContains (pyLower q) ("average rating") ||
        strContains (pyLower q) ("avg rating")) &&
       (strContains (pyLower q) ("faculty") ||
        strContains (pyLower q) ("teaching"))) = false →
      strContains (pyLower q) ("top faculty") = false →
      strContains (pyLower q) ("top course") = false →
      pr.top_skills = Except.ok sks →
      parse_and_query_data q exam (Except.ok pr) fac =
        ("Data Summary: ") ++ ("The top ") ++
          toString (sks.take ((findTopN (pyLower q)).getD 5)).length ++
          (" in-demand skills (by frequency for placed students) are: ") ++
          String.intercalate (", ")
            ((sks.take ((findTopN (pyLower q)).getD 5)).map Prod.fst) ++ (".")) ∧
    (∀ (q : String) (er : ExamResults) (plc : Except String PlacementResults)
       (fac : Except String FacultyResults) (subs : List (String × ℚ)),
      strContains (pyLower q) ("placement rate") = false →
      (strContains (pyLower q) ("average package") ||
        strContains (pyLower q) ("avg package") ||
        strContains (pyLower q) ("average salary")) = false →
      (strContains (pyLower q) ("top companies") ||
        strContains (pyLower q) ("recruiters")) = false →
      (strContains (pyLower q) ("top skills") ||
        strContains (pyLower q) ("demand skills")) = false →
      (strContains (pyLower q) ("average mark") ||
        strContains (pyLower q) ("avg mark")) = false →
      strContains (pyLower q) ("top subject") = true →
      ((strContains (pyLower q) ("average rating") ||
        strContains (pyLower q) ("avg rating")) &&
       (strContains (pyLower q) ("faculty") ||
        strContains (pyLower q) ("teaching"))) = false →
      strContains (pyLower q) ("top faculty") = false →
      strContains (pyLower q) ("top course") = false →
      er.subject_performance = Except.ok subs →
      parse_and_query_data q (Except.ok er) plc fac =
        ("Data Summary: ") ++ ("The top ") ++
          toString (subs.take ((findTopN (pyLower q)).getD 3)).length ++
          (" subjects by average mark are: ") ++
          String.intercalate (", ")
            ((subs.take ((findTopN (pyLower q)).getD 3)).map
              (fun p => p.1 ++ (" (") ++ fmtFixed 1 p.2 ++ (")"))) ++ (".")) ∧
    (∀ (q : String) (exam : Except String ExamResults)
       (plc : Except String PlacementResults) (fr : FacultyResults)
       (facs : List (String × ℚ)),
      strContains (pyLower q) ("placement rate") = false →
      (strContains (pyLower q) ("average package") ||
        strContains (pyLower q) ("avg package") ||
        strContains (pyLower q) ("average salary")) = false →
      (strContains (pyLower q) ("top companies") ||
        strContains (pyLower q) ("recruiters")) = false →
      (strContains (pyLower q) ("top skills") ||
        strContains (pyLower q) ("demand skills")) = false →
      (strContains (pyLower q) ("average mark") ||
        strContains (pyLower q) ("avg mark")) = false →
      strContains (pyLower q) ("top subject") = false →
      ((strContains (pyLower q) ("average rating") ||
        strContains (pyLower q) ("avg rating")) &&
       (strContains (pyLower q) ("faculty") ||
        strContains (pyLower q) ("teaching"))) = false →
      strContains (pyLower q) ("top faculty") = true →
      fr.top_faculty = Except.ok facs →
      parse_and_query_data q exam plc (Except.ok fr) =
        ("Data Summary: ") ++ ("The top ") ++
          toString (facs.take ((findTopN (pyLower q)).getD 3)).length ++
          (" faculty by average rating are: ") ++
          String.intercalate (", ")
            ((facs.take ((findTopN (pyLower q)).getD 3)).map
              (fun p => p.1 ++ (" (") ++ fmtFixed 1 p.2 ++ (")"))) ++ (".")) ∧
    (∀ (q : String) (exam : Except String ExamResults)
       (plc : Except String PlacementResults) (fr : FacultyResults)
       (crs : List (String × ℚ)),
      strContains (pyLower q) ("placement rate") = false →
      (strContains (pyLower q) ("average package") ||
        strContains (pyLower q) ("avg package") ||
        strContains (pyLower q) ("average salary")) = false →
      (strContains (pyLower q) ("top companies") ||
        strContains (pyLower q) ("recruiters")) = false →
      (strContains (pyLower q) ("top skills") ||
        strContains (pyLower q) ("demand skills")) = false →
      (strContains (pyLower q) ("average mark") ||
        strContains (pyLower q) ("avg mark")) = false →
      strContains (pyLower q) ("top subject") = false →
      ((strContains (pyLower q) ("average rating") ||
        strContains (pyLower q) ("avg rating")) &&
       (strContains (pyLower q) ("faculty") ||
        strContains (pyLower q) ("teaching"))) = false →
      strContains (pyLower q) ("top faculty") = false →
      strContains (pyLower q) ("top course") = true →
      fr.course_ratings = Except.ok crs →
      parse_and_query_data q exam plc (Except.ok fr) =
        ("Data Summary: ") ++ ("The top ") ++
          toString (crs.take ((findTopN (pyLower q)).getD 3)).length ++
          (" courses by average rating are: ") ++
          String.intercalate (", ")
            ((crs.take ((findTopN (pyLower q)).getD 3)).map
              (fun p => p.1 ++ (" (") ++ fmtFixed 1 p.2 ++ (")"))) ++ (".")) := by
  refine ⟨?_, ?_, ?_, ?_, ?_⟩
  · intro q exam fac pr comps h1 h2 h3 h4 h5 h6 h7 h8 hc
    simp only [parse_and_query_data, placementSection, examSection, facultySection,
      h1, h2, h3, h4, h5, h6, h7, h8, hc,
      Bool.false_eq_true, if_false, eq_self_iff_true, if_true]
    rw [pyStrip_append_dot_space _ rfl]
  · intro q exam fac pr sks h1 h2 h3 h4 h5 h6 h7 h8 h9 hs
    simp only [parse_and_query_data, placementSection, examSection, facultySection,
      h1, h2, h3, h4, h5, h6, h7, h8, h9, hs,
      Bool.false_eq_true, if_false, eq_self_iff_true, if_true]
    rw [pyStrip_append_dot_space _ rfl]
  · intro q er plc fac subs h1 h2 h3 h4 h5 h6 h7 h8 h9 hsubs
    simp only [parse_and_query_data, placementSection, examSection, facultySection,
      h1, h2, h3, h4, h5, h6, h7, h8, h9, hsubs,
      Bool.false_eq_true, if_false, eq_self_iff_true, if_true]
    rw [pyStrip_append_dot_space _ rfl]
  · intro q exam plc fr facs h1 h2 h3 h4 h5 h6 h7 h8 hf
    simp only [parse_and_query_data, placementSection, examSection, facultySection,
      h1, h2, h3, h4, h5, h6, h7, h8, hf,
      Bool.false_eq_true, if_false, eq_self_iff_true, if_true]
    rw [pyStrip_append_dot_space _ rfl]
  · intro q exam plc fr crs h1 h2 h3 h4 h5 h6 h7 h8 h9 hcrs
    simp only [parse_and_query_data, placementSection, examSection, facultySection,
      h1, h2, h3, h4, h5, h6, h7, h8, h9, hcrs,
      Bool.false_eq_true, if_false, eq_self_iff_true, if_true]
    rw [pyStrip_append_dot_space _ rfl]

/-- Witness for the amended C1: one default-cap instance per ranking intent,
plus an explicit-count instance (`top 3 recruiters`, where `findTopN` yields
3) overriding the default of 5. -/
theorem c1_ranking_caps_and_override_witness :
    parse_and_query_data ("show top companies") (Except.error ("x2"))
        (Except.ok placementSixRanked) (Except.error ("y2")) =
      ("Data Summary: The top 5 recruiting companies (by count) are: Acme, Beta, Corp, Delta, Echo.") ∧
    parse_and_query_data ("top 3 recruiters") (Except.error ("x3"))
        (Except.ok placementSixRanked) (Except.error ("y3")) =
      ("Data Summary: The top 3 recruiting companies (by count) are: Acme, Beta, Corp.") ∧
    parse_and_query_data ("top skills") (Except.error ("e1"))
        (Except.ok placementSixRanked) (Except.error ("f1")) =
      ("Data Summary: The top 5 in-demand skills (by frequency for placed students) are: python, sql, java, c++, excel.") ∧
    parse_and_query_data ("top subjects") (Except.ok examFourSubjects)
        (Except.error ("p1")) (Except.error ("f2")) =
      ("Data Summary: The top 3 subjects by average mark are: Math (91.0), Physics (82.0), Chem (73.0).") ∧
    parse_and_query_data ("top faculty") (Except.error ("e2"))
        (Except.error ("p2")) (Except.ok facultyFourRanked) =
      ("Data Summary: The top 3 faculty by average rating are: Rao (5.0), Sen (4.5), Das (4.0).") ∧
    parse_and_query_data ("top courses") (Except.error ("e3"))
        (Except.error ("p3")) (Except.ok facultyFourRanked) =
      ("Data Summary: The top 3 courses by average rating are: OS (5.0), DB (4.5), ML (4.0).") := by
  refine ⟨?_, ?_, ?_, ?_, ?_, ?_⟩
  · have h := (c1_ranking_caps_and_override).1 ("show top companies")
      (Except.error ("x2")) (Except.error ("y2")) placementSixRanked sixCompanies
      (by decide) (by decide) (by decide) (by decide) (by decide) (by decide)
      (by decide) (by decide) rfl
    with_unfolding_all exact h
  · have h := (c1_ranking_caps_and_override).1 ("top 3 recruiters")
      (Except.error ("x3")) (Except.error ("y3")) placementSixRanked sixCompanies
      (by decide) (by decide) (by decide) (by decide) (by decide) (by decide)
      (by decide) (by decide) rfl
    with_unfolding_all exact h
  · have h := (c1_ranking_caps_and_override).2.1 ("top skills")
      (Except.error ("e1")) (Except.error ("f1")) placementSixRanked sixSkills
      (by decide) (by decide) (by decide) (by decide) (by decide) (by decide)
      (by decide) (by decide) (by decide) rfl
    with_unfolding_all exact h
  · have h := (c1_ranking_caps_and_override).2.2.1 ("top subjects")
      examFourSubjects (Except.error ("p1")) (Except.error ("f2"))
      [(("Math"), 91), (("Physics"), 82), (("Chem"), 73), (("Bio"), 64)]
      (by decide) (by decide) (by decide) (by decide) (by decide) (by decide)
      (by decide) (by decide) (by decide) rfl
    with_unfolding_all exact h
  · have h := (c1_ranking_caps_and_override).2.2.2.1 ("top faculty")
      (Except.error ("e2")) (Except.error ("p2")) facultyFourRanked
      [(("Rao"), 5), (("Sen"), 45/10), (("Das"), 4), (("Roy"), 35/10)]
      (by decide) (by decide) (by decide) (by decide) (by decide) (by decide)
      (by decide) (by decide) rfl
    with_unfolding_all exact h
  · have h := (c1_ranking_caps_and_override).2.2.2.2 ("top courses")
      (Except.error ("e3")) (Except.error ("p3")) facultyFourRanked
      [(("OS"), 5), (("DB"), 45/10), (("ML"), 4), (("NW"), 35/10)]
      (by decide) (by decide) (by decide) (by decide) (by decide) (by decide)
      (by decide) (by decide) (by decide) rfl
    with_unfolding_all exact h

/-- Counterexample to C2: a question containing keywords of several intents
produces a summary combining data from two metric paths (placement rate and
average mark), so one resolution pass is not limited to a single intent. -/
theorem c2_counterexample_combined_summary :
    parse_and_query_data
        ("overall placement rate and average package and average mark")
        (Except.ok examKpiOnly) (Except.ok placementKpiOnly)
        (Except.error ("Faculty data is empty or could not be loaded.")) =
      ("Data Summary: The overall placement rate is 75.0%. The overall average mark is 62.50.") := by
  with_unfolding_all rfl

/-- C2 (amended): within each domain grouping the first matching pattern
alone determines that grouping's contribution (here `placement rate` wins
over the also-present `average package`), but the three domain groupings are
checked independently, so one resolution pass can match up to one intent per
domain and the composed summary concatenates their data. -/
theorem c2_first_pattern_per_domain (q : String) (er : ExamResults)
    (pr : PlacementResults) (fac : Except String FacultyResults)
    (hq1 : strContains (pyLower q) ("placement rate") = true)
    (_hq2 : strContains (pyLower q) ("average package") = true)
    (hq3 : strContains (pyLower q) ("average mark") = true)
    (hq4 : strContains (pyLower q) ("overall") = true)
    (hdept : extract_department (pyLower q)
      [[], pr.department_list, fDeptListE fac] = none)
    (hkpi : pr.kpi_overall_placement_rate.isEmpty = false)
    (h12 : ((strContains (pyLower q) ("average rating") ||
             strContains (pyLower q) ("avg rating")) &&
            (strContains (pyLower q) ("faculty") ||
             strContains (pyLower q) ("teaching"))) = false)
    (h13 : strContains (pyLower q) ("top faculty") = false)
    (h14 : strContains (pyLower q) ("top course") = false) :
    parse_and_query_data q (Except.ok er) (Except.ok pr) fac =
      ("Data Summary: ") ++ ("The overall placement rate is ") ++
        pr.kpi_overall_placement_rate ++ (". ") ++
        ("The overall average mark is ") ++
        fmtFixed 2 er.kpi_overall_avg_mark ++ (".") := by
  simp only [parse_and_query_data, placementSection, examSection, facultySection,
    pDeptListE, hq1, hq3, hq4, hdept, hkpi, h12, h13, h14,
    Bool.false_eq_true, if_false, Bool.true_or, Bool.or_true, Bool.false_or,
    eq_self_iff_true, if_true, Option.isNone_none]
  rw [pyStrip_append_dot_space _ rfl]

/-- Witness for the amended C2 at a concrete multi-intent question. -/
theorem c2_first_pattern_per_domain_witness :
    parse_and_query_data
        ("what is the overall placement rate, the average package and the average mark")
        (Except.ok examKpiOnly) (Except.ok placementKpiOnly)
        (Except.error ("Faculty data is empty or could not be loaded.")) =
      ("Data Summary: The overall placement rate is 75.0%. The overall average mark is 62.50.") := by
  have h := c2_first_pattern_per_domain
    ("what is the overall placement rate, the average package and the average mark")
    examKpiOnly placementKpiOnly
    (Except.error ("Faculty data is empty or could not be loaded."))
    (by decide) (by decide) (by decide) (by decide) (by decide) (by decide)
    (by decide) (by decide) (by decide)
  with_unfolding_all exact h

theorem groupMeanR_key_source (nd : Nat) (rows : List PRow) (v : PRow → ℚ) :
    ∀ k ∈ (groupMeanR nd (validDeptPairs rows v)).map Prod.fst,
      ∃ r ∈ rows, cellStr r.dept = some k := by
  intro k hk
  rcases List.mem_map.mp hk with ⟨kv, hkv, hfst⟩
  unfold groupMeanR at hkv
  rcases List.mem_map.mp hkv with ⟨pp, hpp, hpe⟩
  have hk1 : pp.1 ∈ (validDeptPairs rows v).map Prod.fst :=
    mem_groupMeanKey_key strLeB _ pp hpp
  rcases List.mem_map.mp hk1 with ⟨pair, hpair, hfst2⟩
  rcases List.mem_filterMap.mp hpair with ⟨row, hrow, hmk⟩
  refine ⟨row, hrow, ?_⟩
  have hkk : pair.1 = k := by
    calc pair.1 = pp.1 := hfst2
    _ = kv.1 := by rw [← hpe]
    _ = k := hfst
  revert hmk
  cases hcs : cellStr row.dept with
  | none => intro hmk; simp at hmk
  | some s =>
      intro hmk
      dsimp only at hmk
      by_cases hse : s = ""
      · rw [if_pos hse] at hmk
        simp at hmk
      · rw [if_neg hse] at hmk
        have hsp : (s, v row) = pair := Option.some.inj hmk
        rw [← hkk, ← hsp]

/-- C10 (implicit): department tokens for entity matching are the UPPERCASED
distinct department values, while per-department metric keys preserve the
raw casing of the source data (second conjunct); hence when a question's
extracted token is the uppercased form of a department that is spelled
differently in every raw row, the `placement_rate_by_dept` lookup misses and
the resolver returns the department-specific "could not find" message. -/
theorem c10_uppercase_token_lookup_miss (f : Frame) (q D : String)
    (exam : Except String ExamResults) (fac : Except String FacultyResults)
    (pr : PlacementResults)
    (hok : process_placement_data f = Except.ok pr)
    (hq : strContains (pyLower q) ("placement rate") = true)
    (hd : extract_department (pyLower q)
      [[], pr.department_list, fDeptListE fac] = some D)
    (hmiss : ∀ r ∈ placementCleanRows f, cellStr r.dept ≠ some D) :
    parse_and_query_data q exam (Except.ok pr) fac =
      (("Could not find placement rate data for department \u0027") ++ D ++ ("\u0027.")) ∧
    (∀ k ∈ pr.placement_rate_by_dept.map Prod.fst,
      ∃ r ∈ placementCleanRows f, cellStr r.dept = some k) := by
  have hfields := placement_ok_fields f pr hok
  have hsource : ∀ k ∈ pr.placement_rate_by_dept.map Prod.fst,
      ∃ r ∈ placementCleanRows f, cellStr r.dept = some k := by
    rw [hfields.1]
    exact groupMeanR_key_source 3 (placementCleanRows f) (fun r => (r.pnum : ℚ))
  have hnone : List.lookup D pr.placement_rate_by_dept = none := by
    apply lookup_eq_none_of_not_mem
    intro kv hkv hDk
    rcases hsource kv.1 (List.mem_map_of_mem Prod.fst hkv) with ⟨row, hrow, hcs⟩
    rw [hDk] at hcs
    exact hmiss row hrow hcs
  refine ⟨?_, hsource⟩
  simp only [parse_and_query_data, placementSection, pDeptListE, hq, hd, hnone,
    eq_self_iff_true, if_true]

/-- Witness for C10: the raw spelling `cse` yields the token `CSE`, which the
question matches but the raw-keyed mapping does not contain. -/
theorem c10_uppercase_token_lookup_miss_witness :
    parse_and_query_data ("placement rate for cse") (Except.error ("x"))
        (Except.ok placementLowercaseBundle) (Except.error ("y")) =
      ("Could not find placement rate data for department \u0027CSE\u0027.") :=
  (c10_uppercase_token_lookup_miss placementLowercaseDept
    ("placement rate for cse") ("CSE") (Except.error ("x")) (Except.error ("y"))
    placementLowercaseBundle (by with_unfolding_all rfl) (by decide) (by decide)
    (by with_unfolding_all decide)).1
